import Mathlib

/-!
Verification of the nutripae-menus scheduling and nutritional-aggregation engine.

The definitions below are a shallow embedding of the Python sources:
- `src/services/menu_schedule_service.py` (assignment, overlap detection,
  cancel/uncancel, citizen effective-menu lookup),
- `src/services/nutritional_analysis_service.py` and
  `src/pae_menus/services/nutritional_analysis_service.py` (date enumeration,
  cyclic-day resolution, nutrient aggregation, simplified summary),
- `src/pae_menus/api/nutritional_analysis.py` (requirements comparison
  recommendations),
- the pydantic models in `src/pae_menus/models/` (request validation).

Machine reals (Python floats) are modelled as `Rat`; Python `datetime.date`
values are modelled by `PyDate` together with their proleptic-Gregorian
ordinal `PyDate.toOrdinal` (so date comparison and `timedelta` arithmetic
become `Nat` comparison and successor on ordinals, exactly as in CPython's
`date.toordinal` based implementation).  Wall-clock audit timestamps
(`created_at` / `updated_at`, `cancelled_at`) are outside the model: the
specification's data model for MenuSchedule does not include them.
-/

/-- Embedding of Python `datetime.date`: a (year, month, day) triple. -/
structure PyDate where
  year : Nat
  month : Nat
  day : Nat
deriving DecidableEq, Repr

/-- Gregorian leap-year rule, as used by `datetime.date`. -/
def isLeapYear (y : Nat) : Bool :=
  (y % 4 == 0 && y % 100 != 0) || (y % 400 == 0)

/-- Number of days in month `m` of year `y` (months are 1..12). -/
def daysInMonth (y m : Nat) : Nat :=
  match m with
  | 1 => 31
  | 2 => if isLeapYear y then 29 else 28
  | 3 => 31
  | 4 => 30
  | 5 => 31
  | 6 => 30
  | 7 => 31
  | 8 => 31
  | 9 => 30
  | 10 => 31
  | 11 => 30
  | 12 => 31
  | _ => 0

/-- Days in year `y` strictly before the first day of month `m`. -/
def daysBeforeMonth (y : Nat) : Nat → Nat
  | 0 => 0
  | m + 1 => daysBeforeMonth y m + daysInMonth y m

/-- Leap years among `1, ..., y - 1`. -/
def leapYearsBefore (y : Nat) : Nat :=
  (y - 1) / 4 - (y - 1) / 100 + (y - 1) / 400

/-- Days strictly before January 1 of year `y` (year 1 is day count 0). -/
def daysBeforeYear (y : Nat) : Nat :=
  365 * (y - 1) + leapYearsBefore y

/-- Proleptic Gregorian ordinal of a date, as `datetime.date.toordinal`
(up to a constant offset); date comparison and day differences in the
Python sources are exactly comparison and subtraction of these ordinals. -/
def PyDate.toOrdinal (d : PyDate) : Nat :=
  daysBeforeYear d.year + daysBeforeMonth d.year d.month + (d.day - 1)

/-- Python `d1 <= d2` on dates. -/
def dateLe (a b : PyDate) : Bool :=
  decide (a.toOrdinal ≤ b.toOrdinal)

/-- Python `(a - b).days` for dates with `b <= a`. -/
def daysBetween (a b : PyDate) : Nat :=
  a.toOrdinal - b.toOrdinal

/-- A structurally valid calendar date (what `datetime.date` can hold). -/
def ValidDate (d : PyDate) : Prop :=
  1 ≤ d.month ∧ d.month ≤ 12 ∧ 1 ≤ d.day ∧ d.day ≤ daysInMonth d.year d.month

instance (d : PyDate) : Decidable (ValidDate d) := by
  unfold ValidDate; infer_instance

/-- Embedding of `current_date + timedelta(days=1)` from
`nutritional_analysis_service.generate_nutritional_report` and
`menu_schedule_service.get_schedule_detailed_view`: the true calendar
successor. -/
def succDateTimedelta (d : PyDate) : PyDate :=
  if d.day < daysInMonth d.year d.month then
    { d with day := d.day + 1 }
  else if d.month < 12 then
    { year := d.year, month := d.month + 1, day := 1 }
  else
    { year := d.year + 1, month := 1, day := 1 }

/-- Embedding of `current_date.replace(day=current_date.day + 1)` from
`pae_menus/services/nutritional_analysis_service.analyze_menu_schedule`
line 58: `date.replace` validates the new day against the current month and
raises `ValueError` (modelled as `none`) when `day + 1` exceeds it. -/
def succDateReplace (d : PyDate) : Option PyDate :=
  if d.day + 1 ≤ daysInMonth d.year d.month then
    some { d with day := d.day + 1 }
  else
    none

/-- The date-enumeration loop of `generate_nutritional_report` (and of
`get_schedule_detailed_view`), transported to ordinals: `timedelta(days=1)`
is successor on ordinals and date comparison is ordinal comparison.
`while current_date <= end_date: dates.append(current_date); current_date += 1`.
The fuel argument bounds the number of loop iterations. -/
def scheduleDatesLoopAux : Nat → Nat → Nat → List Nat
  | 0, _, _ => []
  | fuel + 1, c, e => if c ≤ e then c :: scheduleDatesLoopAux fuel (c + 1) e else []

/-- Date enumeration of `generate_nutritional_report`, on ordinals; the fuel
`e + 1 - s` is exactly the number of iterations the Python loop performs. -/
def scheduleDatesLoop (s e : Nat) : List Nat :=
  scheduleDatesLoopAux (e + 1 - s) s e

/-- The date-enumeration loop of `pae_menus` `analyze_menu_schedule`, which
increments with `replace(day=day+1)`; `none` models the `ValueError` raised
by `date.replace` at a month boundary.  The fuel argument bounds the number
of loop iterations; `scheduleDatesReplace` supplies more than enough. -/
def scheduleDatesReplaceAux : Nat → PyDate → PyDate → Option (List PyDate)
  | 0, _, _ => some []
  | fuel + 1, c, e =>
    if dateLe c e then
      match succDateReplace c with
      | none => none
      | some c2 => (scheduleDatesReplaceAux fuel c2 e).map (fun l => c :: l)
    else
      some []

/-- Date enumeration as performed by `pae_menus` `analyze_menu_schedule`. -/
def scheduleDatesReplace (s e : PyDate) : Option (List PyDate) :=
  scheduleDatesReplaceAux (e.toOrdinal + 2 - s.toOrdinal) s e

/-- Cyclic-day resolution on ordinals, embedded from
`get_effective_menu_for_citizen` (lines 692-693) and
`generate_nutritional_report` (lines 84-85):
`days_since_start = (date - start).days; cycle_day = days_since_start % D + 1`. -/
def cycleDayFor (startOrd duration d : Nat) : Nat :=
  (d - startOrd) % duration + 1

/-- The same cyclic-day computation on calendar dates (as written in the
Python sources, which subtract `datetime.date` values). -/
def cycleDayPy (s : PyDate) (duration : Nat) (d : PyDate) : Nat :=
  daysBetween d s % duration + 1

/-! ## Scheduling engine (`src/services/menu_schedule_service.py`)

In this section schedule dates are represented by their ordinals (`Nat`):
Python compares and subtracts `datetime.date` values, which is exactly
comparison and subtraction of `PyDate.toOrdinal` values. -/

/-- Embedding of `MenuScheduleStatus` from `models/menu_schedule.py`. -/
inductive ScheduleStatus where
  | active
  | future
  | completed
  | cancelled
deriving DecidableEq, Repr

/-- Embedding of `LocationType` from `models/menu_schedule.py`. -/
inductive LocationKind where
  | campus
  | town
deriving DecidableEq, Repr

/-- Serialized enum value, as stored in Mongo documents. -/
def locationKindStr : LocationKind → String
  | .campus => "campus"
  | .town => "town"

/-- Embedding of `Coverage` from `models/menu_schedule.py`. -/
structure Coverage where
  location_id : String
  location_type : LocationKind
  location_name : String
deriving DecidableEq, Repr

/-- Embedding of `CancellationInfo` from `models/menu_schedule.py` (the wall-clock
`cancelled_at` timestamp is outside the model). -/
structure CancellationInfo where
  reason : Option String
deriving DecidableEq, Repr

/-- Embedding of `MenuSchedule` document (audit timestamps outside the model; the Mongo
document id is modelled as a `Nat`). -/
structure MenuSchedule where
  id : Nat
  menu_cycle_id : String
  coverage : List Coverage
  start_date : Nat
  end_date : Nat
  status : ScheduleStatus
  cancellation_info : Option CancellationInfo
deriving DecidableEq, Repr

/-- Embedding of `MenuCycleStatus` from `models/menu_cycle.py`. -/
inductive CycleStatus where
  | active
  | inactive
deriving DecidableEq, Repr

/-- Embedding of `DailyMenu` from `models/commons.py` (dish ids as strings). -/
structure DailyMenu where
  day : Nat
  breakfast_dish_ids : List String
  lunch_dish_ids : List String
  snack_dish_ids : List String
deriving DecidableEq, Repr

/-- Embedding of `MenuCycle` document from `models/menu_cycle.py`. -/
structure MenuCycle where
  name : String
  status : CycleStatus
  duration_days : Nat
  daily_menus : List DailyMenu
deriving DecidableEq, Repr

/-- The Mongo query of `_check_overlapping_schedules` (lines 154-165), as a
predicate on one stored schedule: some coverage entry's `location_id` is in
the requested id list, the status is `active` or `future`, the stored range
satisfies `start_date <= end_date_req AND end_date >= start_date_req`, and
the schedule is not the excluded one. -/
def matchesOverlapQuery (locationIds : List String) (s e : Nat)
    (excl : Option Nat) (sch : MenuSchedule) : Bool :=
  sch.coverage.any (fun c => locationIds.contains c.location_id) &&
  (sch.status == ScheduleStatus.active || sch.status == ScheduleStatus.future) &&
  decide (sch.start_date ≤ e) && decide (s ≤ sch.end_date) &&
  (match excl with
   | none => true
   | some i => !(sch.id == i))

/-- The conflicting location names collected by `_check_overlapping_schedules`
(lines 170-174): for each overlapping schedule, the names of its coverage
entries whose `location_id` is among the requested ids. -/
def conflictingNames (locationIds : List String) (overlapping : List MenuSchedule) :
    List String :=
  (overlapping.map (fun sch =>
    (sch.coverage.filter (fun c => locationIds.contains c.location_id)).map
      (fun c => c.location_name))).flatten

/-- Embedding of `_check_overlapping_schedules` (lines 141-180): raises HTTP 409 Conflict
(modelled as `.error` carrying the conflicting location names that the
message lists) when any stored schedule matches the overlap query. -/
def checkOverlappingSchedules (db : List MenuSchedule)
    (campusIds townIds : List String) (s e : Nat) (excl : Option Nat) :
    Except (List String) Unit :=
  let locationIds := campusIds ++ townIds
  let overlapping := db.filter (matchesOverlapQuery locationIds s e excl)
  if overlapping.isEmpty then
    Except.ok ()
  else
    Except.error (conflictingNames locationIds overlapping)

/-- Exit conditions of the service layer (`HTTPException` status classes). -/
inductive HErr where
  | badRequest (detail : String)
  | notFound (detail : String)
  | conflict (locations : List String)
  | internalError (detail : String)
deriving DecidableEq, Repr

/-- Campus record returned by the Coverage Directory (`CampusInfo` in
`coverage_service.py`; the id is kept as its string form, the other fields
are not consumed by the scheduling engine). -/
structure CampusInfo where
  id : String
  name : String
deriving DecidableEq, Repr

/-- Town record returned by the Coverage Directory. -/
structure TownInfo where
  id : String
  name : String
deriving DecidableEq, Repr

/-- Dish document (only the fields the citizen lookup projects). -/
structure DishDoc where
  id : String
  name : String
deriving DecidableEq, Repr

/-- The stores and collaborators an operation reads, plus the clock. -/
structure SchedEnv where
  cycles : String → Option MenuCycle
  campuses : String → Option CampusInfo
  towns : String → Option TownInfo
  schedules : List MenuSchedule
  dishes : List DishDoc
  today : Nat
  nextId : Nat

/-- One access to a store or collaborator, for stating "no store access
occurs before the rejection". -/
inductive StoreEvent where
  | readMenuCycle (id : String)
  | readCampus (id : String)
  | readTown (id : String)
  | readSchedules
  | insertSchedule (sch : MenuSchedule)
deriving DecidableEq, Repr

/-- A character of a hex digit (what `PydanticObjectId` accepts). -/
def isHexDigitChar (c : Char) : Bool :=
  (48 ≤ c.toNat && c.toNat ≤ 57) ||
  (97 ≤ c.toNat && c.toNat ≤ 102) ||
  (65 ≤ c.toNat && c.toNat ≤ 70)

/-- Whether `PydanticObjectId(s)` succeeds: it does iff `s` is a 24-character hex string;
otherwise it raises `ValueError` before any store access. -/
def isValidObjectId (s : String) : Bool :=
  s.toList.length == 24 && s.toList.all isHexDigitChar

/-- Whether `int(s)` succeeds (for the location ids handed to the Coverage
Directory) iff `s` is a non-empty digit string. -/
def isIntString (s : String) : Bool :=
  !s.toList.isEmpty && s.toList.all (fun c => 48 ≤ c.toNat && c.toNat ≤ 57)

/-- Embedding of `coverage_service.validate_campus_ids` (lines 157-169): resolves each id
against the Coverage Directory, failing with 400 on a malformed id (the
`int()` conversion) and 404 on an unknown one.  Also returns the directory
reads performed. -/
def validateCampusIds (env : SchedEnv) :
    List String → Except HErr (List CampusInfo) × List StoreEvent
  | [] => (Except.ok [], [])
  | cid :: rest =>
    if isIntString cid then
      match env.campuses cid with
      | none =>
        (Except.error (HErr.notFound
          "Resource not found in coverage service"), [StoreEvent.readCampus cid])
      | some c =>
        match validateCampusIds env rest with
        | (Except.ok cs, evs) => (Except.ok (c :: cs), StoreEvent.readCampus cid :: evs)
        | (Except.error err, evs) => (Except.error err, StoreEvent.readCampus cid :: evs)
    else
      (Except.error (HErr.badRequest ("Invalid campus ID format: " ++ cid)), [])

/-- Embedding of `coverage_service.validate_town_ids` (lines 171-183). -/
def validateTownIds (env : SchedEnv) :
    List String → Except HErr (List TownInfo) × List StoreEvent
  | [] => (Except.ok [], [])
  | tid :: rest =>
    if isIntString tid then
      match env.towns tid with
      | none =>
        (Except.error (HErr.notFound
          "Resource not found in coverage service"), [StoreEvent.readTown tid])
      | some t =>
        match validateTownIds env rest with
        | (Except.ok ts, evs) => (Except.ok (t :: ts), StoreEvent.readTown tid :: evs)
        | (Except.error err, evs) => (Except.error err, StoreEvent.readTown tid :: evs)
    else
      (Except.error (HErr.badRequest ("Invalid town ID format: " ++ tid)), [])

/-- Embedding of `MenuScheduleAssignmentRequest` from `models/menu_schedule.py`. -/
structure AssignmentRequest where
  menu_cycle_id : String
  campus_ids : List String
  town_ids : List String
  start_date : Nat
  end_date : Nat
deriving DecidableEq, Repr

/-- Pydantic construction of `MenuScheduleAssignmentRequest`.  The
`validate_dates` validator is live: when `end_date` is validated,
`start_date` has already been validated and is in `values.data`, so a
request with `end_date < start_date` raises.  The `validate_locations`
validator, by contrast, is dead code: its guard requires the field
currently being validated to be in `values.data`, which pydantic only
populates with previously validated fields, so the guard is never true and
a request with both `campus_ids` and `town_ids` empty constructs
successfully and reaches the service. -/
def mkAssignmentRequest (mcid : String) (campusIds townIds : List String)
    (s e : Nat) : Except String AssignmentRequest :=
  if e < s then
    Except.error "End date cannot be before start date"
  else
    Except.ok ⟨mcid, campusIds, townIds, s, e⟩

/-- Embedding of `LocationInfo` from `models/menu_schedule.py`. -/
structure LocationInfo where
  id : String
  name : String
  location_type : LocationKind
deriving DecidableEq, Repr

/-- Embedding of `MenuScheduleAssignmentSummary` from `models/menu_schedule.py`. -/
structure AssignmentSummary where
  menu_cycle_id : String
  menu_cycle_name : String
  locations : List LocationInfo
  start_date : Nat
  end_date : Nat
  duration_days : Nat
  schedule_id : Nat
deriving DecidableEq, Repr

/-- Embedding of `MenuScheduleService.assign_menu_cycle` (lines 29-139), returning the
result together with the ordered list of store/collaborator accesses it
performed. -/
def assignMenuCycle (env : SchedEnv) (req : AssignmentRequest) :
    Except HErr AssignmentSummary × List StoreEvent :=
  -- 1. Validate menu cycle exists and is active
  if !isValidObjectId req.menu_cycle_id then
    (Except.error (HErr.badRequest "Invalid menu cycle ID format"), [])
  else
    let ev1 := [StoreEvent.readMenuCycle req.menu_cycle_id]
    match env.cycles req.menu_cycle_id with
    | none =>
      (Except.error (HErr.notFound
        ("Menu cycle with id '" ++ req.menu_cycle_id ++ "' not found")), ev1)
    | some mc =>
      if mc.status != CycleStatus.active then
        (Except.error (HErr.badRequest "Cannot assign inactive menu cycle"), ev1)
      -- 2. Validate that at least one location is provided
      else if req.campus_ids.isEmpty && req.town_ids.isEmpty then
        (Except.error (HErr.badRequest
          "At least one campus or town must be selected"), ev1)
      else
        -- 3. Validate locations exist
        match validateCampusIds env req.campus_ids with
        | (Except.error err, evC) => (Except.error err, ev1 ++ evC)
        | (Except.ok validatedCampuses, evC) =>
          match validateTownIds env req.town_ids with
          | (Except.error err, evT) => (Except.error err, ev1 ++ evC ++ evT)
          | (Except.ok validatedTowns, evT) =>
            -- 4. Check for overlapping schedules
            let ev2 := ev1 ++ evC ++ evT ++ [StoreEvent.readSchedules]
            match checkOverlappingSchedules env.schedules req.campus_ids
                req.town_ids req.start_date req.end_date none with
            | Except.error names => (Except.error (HErr.conflict names), ev2)
            | Except.ok () =>
              -- 5. Create coverage list
              let coverage :=
                validatedCampuses.map (fun c =>
                  Coverage.mk c.id LocationKind.campus c.name) ++
                validatedTowns.map (fun t =>
                  Coverage.mk t.id LocationKind.town t.name)
              let locationInfos :=
                validatedCampuses.map (fun c =>
                  LocationInfo.mk c.id c.name LocationKind.campus) ++
                validatedTowns.map (fun t =>
                  LocationInfo.mk t.id t.name LocationKind.town)
              -- 6. Create menu schedule (status derived from start vs today)
              let sch : MenuSchedule :=
                { id := env.nextId
                  menu_cycle_id := req.menu_cycle_id
                  coverage := coverage
                  start_date := req.start_date
                  end_date := req.end_date
                  status :=
                    if env.today < req.start_date then ScheduleStatus.future
                    else ScheduleStatus.active
                  cancellation_info := none }
              -- 7. Duration and summary
              (Except.ok
                { menu_cycle_id := req.menu_cycle_id
                  menu_cycle_name := mc.name
                  locations := locationInfos
                  start_date := req.start_date
                  end_date := req.end_date
                  duration_days := req.end_date - req.start_date + 1
                  schedule_id := sch.id },
               ev2 ++ [StoreEvent.insertSchedule sch])

/-- The `POST /menu-schedules/assign` pipeline: pydantic request validation
followed by the service call.  A request rejected by the model validation
never reaches the service, so no store access happens; an empty-location
request is not rejected there (see `mkAssignmentRequest`) and does reach
the service. -/
def handleAssign (env : SchedEnv) (mcid : String) (campusIds townIds : List String)
    (s e : Nat) : Except HErr AssignmentSummary × List StoreEvent :=
  match mkAssignmentRequest mcid campusIds townIds s e with
  | Except.error msg => (Except.error (HErr.badRequest msg), [])
  | Except.ok req => assignMenuCycle env req

/-- Embedding of `MenuScheduleService.cancel_schedule` (lines 463-500), acting on the
loaded schedule document: only a schedule that is neither already cancelled
nor completed can be cancelled; the status becomes `cancelled` and the
cancellation metadata is recorded. -/
def cancelSchedule (sch : MenuSchedule) (reason : Option String) :
    Except HErr MenuSchedule :=
  if sch.status == ScheduleStatus.cancelled then
    Except.error (HErr.badRequest "Schedule is already cancelled")
  else if sch.status == ScheduleStatus.completed then
    Except.error (HErr.badRequest "Cannot cancel completed schedule")
  else
    Except.ok { sch with
      status := ScheduleStatus.cancelled
      cancellation_info := some { reason := reason } }

/-- Embedding of `MenuScheduleService.uncancel_schedule` (lines 502-565): only a
cancelled schedule can be uncancelled; the new status is `future` when the
start date is strictly after today and `active` otherwise; the overlap check
re-runs against the schedule's own coverage and dates, excluding itself;
the cancellation metadata is cleared. -/
def uncancelSchedule (db : List MenuSchedule) (sch : MenuSchedule)
    (today : Nat) : Except HErr MenuSchedule :=
  if sch.status != ScheduleStatus.cancelled then
    Except.error (HErr.badRequest
      "Cannot uncancel schedule. Only cancelled schedules can be uncancelled.")
  else
    let newStatus :=
      if today < sch.start_date then ScheduleStatus.future
      else ScheduleStatus.active
    let campusIds :=
      (sch.coverage.filter (fun c => c.location_type == LocationKind.campus)).map
        (fun c => c.location_id)
    let townIds :=
      (sch.coverage.filter (fun c => c.location_type == LocationKind.town)).map
        (fun c => c.location_id)
    -- the source guards the check with `new_status in [ACTIVE, FUTURE]`,
    -- which is always true here
    if newStatus == ScheduleStatus.active || newStatus == ScheduleStatus.future then
      match checkOverlappingSchedules db campusIds townIds
          sch.start_date sch.end_date (some sch.id) with
      | Except.error names => Except.error (HErr.conflict names)
      | Except.ok () =>
        Except.ok { sch with status := newStatus, cancellation_info := none }
    else
      Except.ok { sch with status := newStatus, cancellation_info := none }

/-- Embedding of `DishInMenu` (citizen response payload; the nutritional projection is
not consumed by any stated property and is omitted). -/
structure DishInMenu where
  id : String
  name : String
deriving DecidableEq, Repr

/-- Embedding of `CitizenMenuResponse` from `models/menu_schedule.py`. -/
structure CitizenMenuResponse where
  location_id : String
  location_name : String
  location_type : String
  menu_date : Nat
  menu_cycle_name : String
  breakfast : List DishInMenu
  lunch : List DishInMenu
  snack : List DishInMenu
  is_available : Bool
  message : Option String
deriving DecidableEq, Repr

/-- Lower-casing of an ASCII string (Python `str.lower` on the inputs the
lookup receives). -/
def lowerChar (c : Char) : Char :=
  if 65 ≤ c.toNat ∧ c.toNat ≤ 90 then Char.ofNat (c.toNat + 32) else c

/-- Python `location_type.lower()`. -/
def lowerStr (s : String) : String :=
  String.mk (s.data.map lowerChar)

/-- The Mongo `find_one` filter of `get_effective_menu_for_citizen`
(lines 630-636): some coverage entry has the requested `location_id`, some
coverage entry has the (lower-cased) requested `location_type`, the date is
inside `[start_date, end_date]`, and the status is `active` or `future`. -/
def citizenQueryMatches (lid ltLower : String) (d : Nat) (sch : MenuSchedule) :
    Bool :=
  sch.coverage.any (fun c => c.location_id == lid) &&
  sch.coverage.any (fun c => locationKindStr c.location_type == ltLower) &&
  decide (sch.start_date ≤ d) && decide (d ≤ sch.end_date) &&
  (sch.status == ScheduleStatus.active || sch.status == ScheduleStatus.future)

/-- Embedding of `MenuScheduleService._get_dish_details` (lines 740-766): a Mongo
`$in` lookup of the stored dishes whose id is among the requested ones. -/
def getDishDetails (env : SchedEnv) (dishIds : List String) : List DishInMenu :=
  if dishIds.isEmpty then []
  else (env.dishes.filter (fun dish => dishIds.contains dish.id)).map
    (fun dish => DishInMenu.mk dish.id dish.name)

/-- Embedding of `MenuScheduleService.get_effective_menu_for_citizen` (lines 601-738).
The function is total: an absent schedule, a missing menu cycle, or a
missing daily menu each produce an `is_available = false` response with an
explanatory message instead of an HTTP error. -/
def getEffectiveMenuForCitizen (env : SchedEnv) (locationId locationType : String)
    (queryDate : Nat) : CitizenMenuResponse :=
  let lt := lowerStr locationType
  match env.schedules.find? (citizenQueryMatches locationId lt queryDate) with
  | none =>
    -- best-effort location name from the Coverage Directory
    let locationName :=
      if lt == "campus" then
        match env.campuses locationId with
        | some c => c.name
        | none => "Unknown Location"
      else if lt == "town" then
        match env.towns locationId with
        | some t => t.name
        | none => "Unknown Location"
      else "Unknown Location"
    { location_id := locationId, location_name := locationName
      location_type := locationType, menu_date := queryDate
      menu_cycle_name := "", breakfast := [], lunch := [], snack := []
      is_available := false
      message := some ("No menu schedule found for this location and date. " ++
        "Please check if the date is within an active menu period.") }
  | some sch =>
    let locationName :=
      match sch.coverage.find? (fun c => c.location_id == locationId) with
      | some c => c.location_name
      | none => "Unknown Location"
    match env.cycles sch.menu_cycle_id with
    | none =>
      { location_id := locationId, location_name := locationName
        location_type := locationType, menu_date := queryDate
        menu_cycle_name := "", breakfast := [], lunch := [], snack := []
        is_available := false
        message := some "Menu cycle not found. Please contact administration." }
    | some mc =>
      let cycleDay := cycleDayFor sch.start_date mc.duration_days queryDate
      match mc.daily_menus.find? (fun dm => dm.day == cycleDay) with
      | none =>
        { location_id := locationId, location_name := locationName
          location_type := locationType, menu_date := queryDate
          menu_cycle_name := mc.name, breakfast := [], lunch := [], snack := []
          is_available := false
          message := some "No menu configured for this day of the cycle." }
      | some dm =>
        { location_id := locationId, location_name := locationName
          location_type := locationType, menu_date := queryDate
          menu_cycle_name := mc.name
          breakfast := getDishDetails env dm.breakfast_dish_ids
          lunch := getDishDetails env dm.lunch_dish_ids
          snack := getDishDetails env dm.snack_dish_ids
          is_available := true
          message := none }

/-! ## Nutritional aggregation engine
(`src/pae_menus/services/nutritional_analysis_service.py`,
`src/pae_menus/api/nutritional_analysis.py`,
`src/services/nutritional_analysis_service.py`).

Food-group aggregation is orthogonal to every stated property and is left
out of the report embedding; nutrient aggregation is embedded in full. -/

/-- Embedding of `DishType` from `pae_menus/models/dish.py`. -/
inductive DishKind where
  | protein
  | cereal
  | vegetable
  | fruit
  | dairy
  | other
deriving DecidableEq, Repr

/-- Embedding of `NutritionalInfo` from `pae_menus/models/commons.py`: every nutrient
field is optional. -/
structure DishNutrition where
  calories : Option Rat
  protein : Option Rat
  carbohydrates : Option Rat
  fat : Option Rat
  fiber : Option Rat
  sodium : Option Rat
  calcium : Option Rat
  iron : Option Rat
  vitamin_c : Option Rat
  vitamin_a : Option Rat
deriving DecidableEq, Repr

/-- Dish document as consumed by the aggregation engine. -/
structure DishFull where
  id : String
  name : String
  dish_type : Option DishKind
  nutritional_info : Option DishNutrition
deriving DecidableEq, Repr

/-- Embedding of `NutrientSummary` from `pae_menus/models/nutritional_analysis.py`
(every field defaults to 0). -/
structure NutrientTotals where
  total_calories : Rat := 0
  total_protein : Rat := 0
  total_carbohydrates : Rat := 0
  total_fat : Rat := 0
  total_fiber : Rat := 0
  total_sodium : Rat := 0
  total_calcium : Rat := 0
  total_iron : Rat := 0
  total_vitamin_c : Rat := 0
  total_vitamin_a : Rat := 0
deriving DecidableEq, Repr

/-- Embedding of `NutrientSummary()` with all defaults. -/
def zeroNutrients : NutrientTotals := {}

/-- Embedding of `NutritionalAnalysisService._add_nutrients` (lines 223-237). -/
def addNutrients (base addition : NutrientTotals) : NutrientTotals where
  total_calories := base.total_calories + addition.total_calories
  total_protein := base.total_protein + addition.total_protein
  total_carbohydrates := base.total_carbohydrates + addition.total_carbohydrates
  total_fat := base.total_fat + addition.total_fat
  total_fiber := base.total_fiber + addition.total_fiber
  total_sodium := base.total_sodium + addition.total_sodium
  total_calcium := base.total_calcium + addition.total_calcium
  total_iron := base.total_iron + addition.total_iron
  total_vitamin_c := base.total_vitamin_c + addition.total_vitamin_c
  total_vitamin_a := base.total_vitamin_a + addition.total_vitamin_a

/-- The nutrient accumulation of `_calculate_daily_summary` (lines 184-196):
each dish with nutritional info contributes its fields, any missing field
contributing 0 (`or 0`). -/
def dishContribution (dish : DishFull) : NutrientTotals :=
  match dish.nutritional_info with
  | none => zeroNutrients
  | some ni =>
    { total_calories := ni.calories.getD 0
      total_protein := ni.protein.getD 0
      total_carbohydrates := ni.carbohydrates.getD 0
      total_fat := ni.fat.getD 0
      total_fiber := ni.fiber.getD 0
      total_sodium := ni.sodium.getD 0
      total_calcium := ni.calcium.getD 0
      total_iron := ni.iron.getD 0
      total_vitamin_c := ni.vitamin_c.getD 0
      total_vitamin_a := ni.vitamin_a.getD 0 }

/-- Total nutrients of one day's dish list (`_calculate_daily_summary`). -/
def calcDailyNutrients (dishes : List DishFull) : NutrientTotals :=
  dishes.foldl (fun acc dish => addNutrients acc (dishContribution dish)) zeroNutrients

/-- Embedding of `DailyNutritionalSummary` (nutrient part). -/
structure DailySummary where
  date : PyDate
  cycle_day : Nat
  nutrients : NutrientTotals
  total_dishes : Nat
deriving DecidableEq, Repr

/-- Embedding of `LocationNutritionalSummary` (nutrient part). -/
structure LocationSummary where
  location_id : String
  location_name : String
  location_type : String
  daily_summaries : List DailySummary
  period_totals : NutrientTotals
deriving DecidableEq, Repr

/-- Schedule document as read by the analysis engine (calendar dates). -/
structure ScheduleDoc where
  id : String
  menu_cycle_id : String
  coverage : List Coverage
  start_date : PyDate
  end_date : PyDate
deriving DecidableEq, Repr

/-- Stores read by the aggregation engine. -/
structure AnalysisEnv where
  schedules : String → Option ScheduleDoc
  cycles : String → Option MenuCycle
  dishes : List DishFull

/-- Embedding of `NutritionalAnalysisService._analyze_location` (lines 112-176): for each
enumerated date, compute the cycle day relative to `schedule_dates[0]`, look
up the daily menu (a missing daily menu skips the date entirely), fetch the
day's dishes with a `$in` query, and accumulate per-day and period totals. -/
def analyzeLocation (env : AnalysisEnv) (cov : Coverage) (dates : List PyDate)
    (mc : MenuCycle) : LocationSummary :=
  let dailies := dates.filterMap (fun d =>
    match dates.head? with
    | none => none
    | some s0 =>
      let cycleDay := cycleDayPy s0 mc.duration_days d
      match mc.daily_menus.find? (fun dm => dm.day == cycleDay) with
      | none => none
      | some dm =>
        let allDishIds := dm.breakfast_dish_ids ++ dm.lunch_dish_ids ++
          dm.snack_dish_ids
        let dishes := env.dishes.filter (fun dish => allDishIds.contains dish.id)
        some { date := d
               cycle_day := cycleDay
               nutrients := calcDailyNutrients dishes
               total_dishes := dishes.length })
  { location_id := cov.location_id
    location_name := cov.location_name
    location_type := locationKindStr cov.location_type
    daily_summaries := dailies
    period_totals :=
      dailies.foldl (fun acc ds => addNutrients acc ds.nutrients) zeroNutrients }

/-- Embedding of `NutritionalAnalysisReport` (nutrient part; `analysis_date` is wall
clock and outside the model). -/
structure AnalysisReport where
  schedule_id : String
  menu_cycle_name : String
  start_date : PyDate
  end_date : PyDate
  total_days : Nat
  locations : List LocationSummary
  overall_summary : NutrientTotals
deriving DecidableEq, Repr

/-- Embedding of `NutritionalAnalysisService.analyze_menu_schedule` (lines 26-110):
schedule and cycle lookups fail with 404; the date enumeration increments
with `replace(day=day+1)`, whose `ValueError` is caught by the generic
handler and surfaced as HTTP 500; per-location summaries and the overall
totals are accumulated over the enumerated dates. -/
def analyzeMenuSchedule (env : AnalysisEnv) (scheduleId : String) :
    Except HErr AnalysisReport :=
  match env.schedules scheduleId with
  | none =>
    Except.error (HErr.notFound
      ("Menu schedule with id '" ++ scheduleId ++ "' not found"))
  | some sch =>
    match env.cycles sch.menu_cycle_id with
    | none =>
      Except.error (HErr.notFound
        ("Menu cycle not found for schedule '" ++ scheduleId ++ "'"))
    | some mc =>
      match scheduleDatesReplace sch.start_date sch.end_date with
      | none =>
        Except.error (HErr.internalError
          "Error analyzing menu schedule: day is out of range for month")
      | some dates =>
        let locationSummaries :=
          sch.coverage.map (fun cov => analyzeLocation env cov dates mc)
        let overall := locationSummaries.foldl
          (fun acc l => addNutrients acc l.period_totals) zeroNutrients
        Except.ok
          { schedule_id := scheduleId
            menu_cycle_name := mc.name
            start_date := sch.start_date
            end_date := sch.end_date
            total_days := dates.length
            locations := locationSummaries
            overall_summary := overall }

/-- Embedding of `SimplifiedNutritionalSummary` (the fields the stated properties
concern; serving counts and quality scores are omitted). -/
structure SimplifiedSummary where
  schedule_id : String
  menu_cycle_name : String
  total_locations : Nat
  avg_daily_calories : Rat
  avg_daily_protein : Rat
  avg_daily_carbs : Rat
  avg_daily_fat : Rat
deriving DecidableEq, Repr

/-- Embedding of `NutritionalAnalysisService.get_simplified_summary` (lines 240-301):
daily per-person averages divide the overall totals by
`total_days * total_locations`, guarded by `if total_person_days > 0 else 0`. -/
def getSimplifiedSummary (env : AnalysisEnv) (scheduleId : String) :
    Except HErr SimplifiedSummary :=
  match analyzeMenuSchedule env scheduleId with
  | Except.error e => Except.error e
  | Except.ok fullAnalysis =>
    let totalDays := fullAnalysis.total_days
    let totalLocations := fullAnalysis.locations.length
    let totalPersonDays := totalDays * totalLocations
    Except.ok
      { schedule_id := scheduleId
        menu_cycle_name := fullAnalysis.menu_cycle_name
        total_locations := totalLocations
        avg_daily_calories :=
          if 0 < totalPersonDays then
            fullAnalysis.overall_summary.total_calories / (totalPersonDays : Rat)
          else 0
        avg_daily_protein :=
          if 0 < totalPersonDays then
            fullAnalysis.overall_summary.total_protein / (totalPersonDays : Rat)
          else 0
        avg_daily_carbs :=
          if 0 < totalPersonDays then
            fullAnalysis.overall_summary.total_carbohydrates / (totalPersonDays : Rat)
          else 0
        avg_daily_fat :=
          if 0 < totalPersonDays then
            fullAnalysis.overall_summary.total_fat / (totalPersonDays : Rat)
          else 0 }

/-- Embedding of `NutritionalRequirements` from `models/nutritional_analysis.py`
(service-tree version: the six tracked nutrients). -/
structure ReqProfile where
  age_group : String
  daily_calories : Rat
  daily_protein : Rat
  daily_calcium : Rat
  daily_iron : Rat
  daily_vitamin_c : Rat
  daily_vitamin_a : Rat
deriving DecidableEq, Repr

/-- The `requirements_data` table of
`NutritionalAnalysisService.compare_with_requirements` (lines 460-481),
with the `dict.get` fallback to the school-age 6-12 profile. -/
def requirementsFor (ageGroup : String) : ReqProfile :=
  if ageGroup == "school_age_13_18" then
    { age_group := "school_age_13_18"
      daily_calories := 2200
      daily_protein := 55
      daily_calcium := 1200
      daily_iron := 12
      daily_vitamin_c := 75
      daily_vitamin_a := 900 }
  else
    { age_group := "school_age_6_12"
      daily_calories := 1800
      daily_protein := 45
      daily_calcium := 1000
      daily_iron := 10
      daily_vitamin_c := 45
      daily_vitamin_a := 700 }

/-- Embedding of `NutritionalComparisonReport` (service-tree version, the computed
fields). -/
structure ComparisonReport where
  requirements : ReqProfile
  calorie_compliance : Rat
  protein_compliance : Rat
  calcium_compliance : Rat
  iron_compliance : Rat
  vitamin_c_compliance : Rat
  vitamin_a_compliance : Rat
  overall_compliance : Rat
  compliance_status : String
  improvement_areas : List String
deriving DecidableEq, Repr

/-- Embedding of `NutritionalAnalysisService.compare_with_requirements` (lines 456-540),
as a function of the actual average daily intake: per-nutrient compliance is
`actual / required * 100`, overall compliance the mean over the six
nutrients, the status the 90/80/70 bucket, and every nutrient under 80%
an improvement area. -/
def compareWithRequirements (actual : NutrientTotals) (ageGroup : String) :
    ComparisonReport :=
  let req := requirementsFor ageGroup
  let calorieCompliance := actual.total_calories / req.daily_calories * 100
  let proteinCompliance := actual.total_protein / req.daily_protein * 100
  let calciumCompliance := actual.total_calcium / req.daily_calcium * 100
  let ironCompliance := actual.total_iron / req.daily_iron * 100
  let vitaminCCompliance := actual.total_vitamin_c / req.daily_vitamin_c * 100
  let vitaminACompliance := actual.total_vitamin_a / req.daily_vitamin_a * 100
  let overallCompliance :=
    (calorieCompliance + proteinCompliance + calciumCompliance +
     ironCompliance + vitaminCCompliance + vitaminACompliance) / 6
  let complianceStatus :=
    if overallCompliance ≥ 90 then "excellent"
    else if overallCompliance ≥ 80 then "good"
    else if overallCompliance ≥ 70 then "fair"
    else "poor"
  let improvementAreas :=
    (if calorieCompliance < 80 then ["Energy/Calories"] else []) ++
    (if proteinCompliance < 80 then ["Protein"] else []) ++
    (if calciumCompliance < 80 then ["Calcium"] else []) ++
    (if ironCompliance < 80 then ["Iron"] else []) ++
    (if vitaminCCompliance < 80 then ["Vitamin C"] else []) ++
    (if vitaminACompliance < 80 then ["Vitamin A"] else [])
  { requirements := req
    calorie_compliance := calorieCompliance
    protein_compliance := proteinCompliance
    calcium_compliance := calciumCompliance
    iron_compliance := ironCompliance
    vitamin_c_compliance := vitaminCCompliance
    vitamin_a_compliance := vitaminACompliance
    overall_compliance := overallCompliance
    compliance_status := complianceStatus
    improvement_areas := improvementAreas }

/-- A recommendation emitted by the `POST .../compare` endpoint
(`pae_menus/api/nutritional_analysis.py` lines 125-140); the numeric
string formatting of the message is abstracted away. -/
inductive ComparisonRec where
  | significantlyIncrease (nutrient : String)
  | moderatelyIncrease (nutrient : String)
  | considerReducingSodium
  | considerReducingFat
deriving DecidableEq, Repr

/-- The recommendation loop of the `compare` endpoint: a nutrient under 80%
compliance yields a "significantly increase" recommendation below 50% and a
"moderately increase" one otherwise; above 150%, sodium and fat (and only
they) yield a "consider reducing" recommendation. -/
def apiRecommendations : List (String × Rat) → List ComparisonRec
  | [] => []
  | (nutrient, percentage) :: rest =>
    (if percentage < 80 then
      (if percentage < 50 then [ComparisonRec.significantlyIncrease nutrient]
       else [ComparisonRec.moderatelyIncrease nutrient])
     else if percentage > 150 then
      (if nutrient == "sodium" then [ComparisonRec.considerReducingSodium]
       else if nutrient == "fat" then [ComparisonRec.considerReducingFat]
       else [])
     else []) ++ apiRecommendations rest

/-- The coverage-gap loop of the `compare` endpoint: every nutrient under
80% compliance is reported as a gap. -/
def apiCoverageGaps (compliance : List (String × Rat)) : List String :=
  (compliance.filter (fun np => np.2 < 80)).map (fun np => np.1)

/-- The overlap-conflict condition of the specification: an existing
schedule shares at least one location identifier with the request, its
status is `active` or `future`, and its date range overlaps the requested
one under the inclusive rule `s1 <= e2 AND s2 <= e1`. -/
def OverlapConflict (ids : List String) (s e : Nat) (sch : MenuSchedule) : Prop :=
  (∃ c ∈ sch.coverage, c.location_id ∈ ids) ∧
  (sch.status = ScheduleStatus.active ∨ sch.status = ScheduleStatus.future) ∧
  sch.start_date ≤ e ∧ s ≤ sch.end_date

instance (ids : List String) (s e : Nat) (sch : MenuSchedule) :
    Decidable (OverlapConflict ids s e sch) := by
  unfold OverlapConflict; infer_instance

/-- Rewrites the location kind of a coverage entry, leaving identifier and
name unchanged. -/
def mapCoverageKind (f : LocationKind → LocationKind) (c : Coverage) : Coverage :=
  { c with location_type := f c.location_type }

/-- Rewrites all location kinds of a schedule's coverage. -/
def mapScheduleKind (f : LocationKind → LocationKind) (sch : MenuSchedule) :
    MenuSchedule :=
  { sch with coverage := sch.coverage.map (mapCoverageKind f) }

/-! Concrete fixtures used by witness theorems. -/

/-- An active stored schedule covering campus "42" on days 10..20. -/
def schW1 : MenuSchedule :=
  ⟨1, "mc", [⟨"42", LocationKind.campus, "Campus X"⟩], 10, 20,
    ScheduleStatus.active, none⟩

/-- A cancelled copy of `schW1`. -/
def schW1c : MenuSchedule :=
  ⟨2, "mc", [⟨"42", LocationKind.campus, "Campus X"⟩], 10, 20,
    ScheduleStatus.cancelled, none⟩

/-- An active schedule used by the cancel/uncancel round-trip witness. -/
def schW5 : MenuSchedule :=
  ⟨1, "mc", [⟨"5", LocationKind.campus, "Campus C"⟩], 10, 20,
    ScheduleStatus.active, none⟩

/-- The schedule `schW5` after cancellation. -/
def schW5c : MenuSchedule :=
  { schW5 with
    status := ScheduleStatus.cancelled
    cancellation_info := some { reason := some "maintenance" } }

/-- The schedule `schW5` after cancellation and uncancellation on day 30. -/
def schW5u : MenuSchedule :=
  { schW5c with status := ScheduleStatus.active, cancellation_info := none }

/-- Environment with no schedules, cycles, or locations at all. -/
def envC6a : SchedEnv :=
  ⟨fun _ => none, fun _ => none, fun _ => none, [], [], 0, 0⟩

/-- A stored active schedule covering campus "7" on days 0..100. -/
def schC6 : MenuSchedule :=
  ⟨1, "mc", [⟨"7", LocationKind.campus, "Campus S"⟩], 0, 100,
    ScheduleStatus.active, none⟩

/-- Environment with a schedule whose menu cycle is missing. -/
def envC6b : SchedEnv :=
  ⟨fun _ => none, fun _ => none, fun _ => none, [schC6], [], 0, 0⟩

/-- A menu cycle with no daily menus configured. -/
def mcC6 : MenuCycle := ⟨"Cycle M", CycleStatus.active, 7, []⟩

/-- Environment with a schedule and cycle but no daily menu for any day. -/
def envC6c : SchedEnv :=
  ⟨fun cid => if cid == "mc" then some mcC6 else none,
   fun _ => none, fun _ => none, [schC6], [], 0, 0⟩

/-- A syntactically valid Mongo ObjectId. -/
def cidC9 : String := "aaaaaaaaaaaaaaaaaaaaaaaa"

/-- An active menu cycle for the assignment witness. -/
def mcC9 : MenuCycle := ⟨"Cycle A", CycleStatus.active, 7, []⟩

/-- Environment for the assignment witness: one active cycle, one campus,
empty schedule store, today = day 100. -/
def envC9 : SchedEnv :=
  ⟨fun i => if i == cidC9 then some mcC9 else none,
   fun i => if i == "1" then some ⟨"1", "Campus One"⟩ else none,
   fun _ => none, [], [], 100, 5⟩

/-- Future-dated assignment request for campus "1". -/
def reqC9 : AssignmentRequest := ⟨cidC9, ["1"], [], 200, 210⟩

/-- The schedule `assignMenuCycle` inserts for `reqC9` in `envC9`. -/
def schC9 : MenuSchedule :=
  ⟨5, cidC9, [⟨"1", LocationKind.campus, "Campus One"⟩], 200, 210,
    ScheduleStatus.future, none⟩

/-- The summary `assignMenuCycle` returns for `reqC9` in `envC9`. -/
def sumC9 : AssignmentSummary :=
  ⟨cidC9, "Cycle A", [⟨"1", "Campus One", LocationKind.campus⟩], 200, 210, 11, 5⟩

/-- The store accesses `assignMenuCycle` performs for `reqC9` in `envC9`. -/
def evsC9 : List StoreEvent :=
  [StoreEvent.readMenuCycle cidC9, StoreEvent.readCampus "1",
   StoreEvent.readSchedules, StoreEvent.insertSchedule schC9]

/-- Single-day schedule with no coverage, for the simplified-summary
witness. -/
def schW8 : ScheduleDoc := ⟨"w", "mcw", [], ⟨2024, 3, 1⟩, ⟨2024, 3, 1⟩⟩

/-- One-day cycle with no daily menus. -/
def mcW8 : MenuCycle := ⟨"W", CycleStatus.active, 1, []⟩

/-- Analysis environment for the simplified-summary witness. -/
def envW8 : AnalysisEnv :=
  ⟨fun i => if i == "w" then some schW8 else none,
   fun i => if i == "mcw" then some mcW8 else none, []⟩

/-- The report `analyzeMenuSchedule` produces for `schW8`. -/
def rW8 : AnalysisReport :=
  ⟨"w", "W", ⟨2024, 3, 1⟩, ⟨2024, 3, 1⟩, 1, [], zeroNutrients⟩

/-- The summary `getSimplifiedSummary` produces for `schW8`. -/
def sW8 : SimplifiedSummary := ⟨"w", "W", 0, 0, 0, 0, 0⟩

/-- A dish worth 7000 kcal (the whole weekly energy of one location). -/
def dishS8 : DishFull :=
  ⟨"d1", "Rice", some DishKind.cereal,
    some ⟨some 7000, some 30, none, none, none, none, none, none, none, none⟩⟩

/-- A 7-day cycle serving `dishS8` for breakfast on cycle day 1 and
nothing on the other days. -/
def mcS8 : MenuCycle :=
  ⟨"Weekly-7", CycleStatus.active, 7, [⟨1, ["d1"], [], []⟩]⟩

/-- A 7-day schedule over two campuses (Scenario 5 of the specification). -/
def schS8 : ScheduleDoc :=
  ⟨"s1", "mc1",
    [⟨"10", LocationKind.campus, "Campus A"⟩,
     ⟨"20", LocationKind.campus, "Campus B"⟩],
    ⟨2024, 3, 1⟩, ⟨2024, 3, 7⟩⟩

/-- Analysis environment realizing Scenario 5: 7 days, 2 locations,
1000 kcal per location-day, 14000 kcal overall. -/
def envS8 : AnalysisEnv :=
  ⟨fun i => if i == "s1" then some schS8 else none,
   fun i => if i == "mc1" then some mcS8 else none, [dishS8]⟩

/-- Average intake meeting the 6-12 requirements exactly (100%). -/
def actualA : NutrientTotals :=
  { total_calories := 1800, total_protein := 45, total_calcium := 1000,
    total_iron := 10, total_vitamin_c := 45, total_vitamin_a := 700 }

/-- Average intake at 85% of every 6-12 requirement. -/
def actualB : NutrientTotals :=
  { total_calories := 1530, total_protein := (153 : Rat) / 4,
    total_calcium := 850, total_iron := (17 : Rat) / 2,
    total_vitamin_c := (153 : Rat) / 4, total_vitamin_a := 595 }

/-- Average intake at 75% of every 6-12 requirement. -/
def actualC : NutrientTotals :=
  { total_calories := 1350, total_protein := (135 : Rat) / 4,
    total_calcium := 750, total_iron := (15 : Rat) / 2,
    total_vitamin_c := (135 : Rat) / 4, total_vitamin_a := 525 }

/-- Compliance pairs exercising every recommendation rule of the compare
endpoint. -/
def pairsC7 : List (String × Rat) :=
  [("calories", 40), ("protein", 60), ("sodium", 200), ("fat", 160)]

/-- An active stored schedule covering the *town* with identifier "42". -/
def schW10 : MenuSchedule :=
  ⟨3, "mc", [⟨"42", LocationKind.town, "Town T"⟩], 10, 20,
    ScheduleStatus.active, none⟩

/-- The seven March dates of Scenario 5. -/
def datesS8 : List PyDate :=
  [⟨2024, 3, 1⟩, ⟨2024, 3, 2⟩, ⟨2024, 3, 3⟩, ⟨2024, 3, 4⟩, ⟨2024, 3, 5⟩,
   ⟨2024, 3, 6⟩, ⟨2024, 3, 7⟩]

/-- Nutrients of the single dish-bearing Scenario-5 location-day. -/
def nutD7 : NutrientTotals := { total_calories := 7000, total_protein := 30 }

/-- Overall Scenario-5 nutrients: two locations. -/
def nutD14 : NutrientTotals := { total_calories := 14000, total_protein := 60 }

/-- The per-location summary the analysis computes in Scenario 5: only
cycle day 1 has a daily menu, so only 2024-03-01 yields a daily summary. -/
def locSum8 (cov : Coverage) : LocationSummary :=
  { location_id := cov.location_id
    location_name := cov.location_name
    location_type := locationKindStr cov.location_type
    daily_summaries := [⟨⟨2024, 3, 1⟩, 1, nutD7, 1⟩]
    period_totals := nutD7 }

/-- The full Scenario-5 analysis report. -/
def rS8full : AnalysisReport :=
  { schedule_id := "s1"
    menu_cycle_name := "Weekly-7"
    start_date := ⟨2024, 3, 1⟩
    end_date := ⟨2024, 3, 7⟩
    total_days := 7
    locations := [locSum8 ⟨"10", LocationKind.campus, "Campus A"⟩,
      locSum8 ⟨"20", LocationKind.campus, "Campus B"⟩]
    overall_summary := nutD14 }

/-- The Scenario-5 simplified summary: 14000 kcal over 14 person-days. -/
def sS8 : SimplifiedSummary := ⟨"s1", "Weekly-7", 2, 1000, (30 : Rat) / 7, 0, 0⟩

/-! ## Supporting lemmas -/

/-- The timedelta enumeration loop, with fuel equal to the remaining trip
count, produces the contiguous range. -/
theorem scheduleDatesLoopAux_eq_range' :
    ∀ (fuel c e : Nat), fuel = e + 1 - c →
      scheduleDatesLoopAux fuel c e = List.range' c fuel := by
  intro fuel
  induction fuel with
  | zero => intro c e _; rfl
  | succ f ih =>
    intro c e hf
    have hce : c ≤ e := by omega
    have hf2 : f = e + 1 - (c + 1) := by omega
    simp [scheduleDatesLoopAux, hce, List.range'_succ, ih (c + 1) e hf2]

/-- The date enumeration of the report generator is the contiguous ordinal
range from start to end. -/
theorem scheduleDatesLoop_eq_range' (s e : Nat) :
    scheduleDatesLoop s e = List.range' s (e + 1 - s) :=
  scheduleDatesLoopAux_eq_range' (e + 1 - s) s e rfl

/-! ## Claims -/

/-- C2: for every schedule start `s` with cycle duration `D > 0` and every
date `d ≥ s`, the cyclic day the services compute equals
`((d - s) mod D) + 1` (on day ordinals), agrees with the ordinal-level
computation used by the scheduling engine, and lies in `1..D`; in
particular, for start 2024-01-01 and `D = 7` the cyclic day of 2024-01-08
is 1 (the difference of the two calendar dates being 7 days). -/
theorem c2_cyclic_day_resolution :
    (∀ (s d : PyDate) (dur : Nat), dateLe s d = true → 0 < dur →
      cycleDayPy s dur d = (d.toOrdinal - s.toOrdinal) % dur + 1 ∧
      cycleDayPy s dur d = cycleDayFor s.toOrdinal dur d.toOrdinal ∧
      1 ≤ cycleDayPy s dur d ∧ cycleDayPy s dur d ≤ dur) ∧
    cycleDayPy ⟨2024, 1, 1⟩ 7 ⟨2024, 1, 8⟩ = 1 ∧
    daysBetween ⟨2024, 1, 8⟩ ⟨2024, 1, 1⟩ = 7 := by
  refine ⟨fun s d dur _ hdur => ⟨rfl, rfl, Nat.le_add_left 1 _, ?_⟩, by decide, by decide⟩
  have hmod := Nat.mod_lt (daysBetween d s) hdur
  show daysBetween d s % dur + 1 ≤ dur
  omega

/-- Witness for C2 at the specification's Scenario 1 input. -/
theorem c2_cyclic_day_resolution_witness :
    dateLe ⟨2024, 1, 1⟩ ⟨2024, 1, 8⟩ = true ∧ 0 < 7 ∧
    (cycleDayPy ⟨2024, 1, 1⟩ 7 ⟨2024, 1, 8⟩ =
        (PyDate.toOrdinal ⟨2024, 1, 8⟩ - PyDate.toOrdinal ⟨2024, 1, 1⟩) % 7 + 1 ∧
      cycleDayPy ⟨2024, 1, 1⟩ 7 ⟨2024, 1, 8⟩ =
        cycleDayFor (PyDate.toOrdinal ⟨2024, 1, 1⟩) 7 (PyDate.toOrdinal ⟨2024, 1, 8⟩) ∧
      1 ≤ cycleDayPy ⟨2024, 1, 1⟩ 7 ⟨2024, 1, 8⟩ ∧
      cycleDayPy ⟨2024, 1, 1⟩ 7 ⟨2024, 1, 8⟩ ≤ 7) :=
  ⟨by decide, by decide,
    c2_cyclic_day_resolution.1 ⟨2024, 1, 1⟩ ⟨2024, 1, 8⟩ 7 (by decide) (by decide)⟩

/-- C4: the report generator's date enumeration is inclusive on both ends:
for `start ≤ end` it enumerates exactly `(end - start) + 1` dates, namely
every date in the closed interval, each once, in ascending order, and a
single-day schedule yields exactly one date.  The `pae_menus` variant of the
analysis, however, increments dates with `replace(day=day+1)` and raises
`ValueError` (here `none`) already on the single-day schedule
2024-01-31..2024-01-31, because day 32 is out of range for January. -/
theorem c4_date_enumeration_inclusive :
    (∀ s e : Nat, s ≤ e →
      (scheduleDatesLoop s e).length = (e - s) + 1 ∧
      (∀ d : Nat, d ∈ scheduleDatesLoop s e ↔ s ≤ d ∧ d ≤ e) ∧
      (scheduleDatesLoop s e).Nodup ∧
      List.Sorted (· < ·) (scheduleDatesLoop s e) ∧
      (s = e → scheduleDatesLoop s e = [s])) ∧
    scheduleDatesReplace ⟨2024, 1, 31⟩ ⟨2024, 1, 31⟩ = none := by
  refine ⟨fun s e hse => ?_, by decide⟩
  rw [scheduleDatesLoop_eq_range']
  refine ⟨by simp; omega, fun d => ?_, List.nodup_range' s _,
    List.pairwise_lt_range' s _, fun hse2 => ?_⟩
  · rw [List.mem_range'_1]; omega
  · subst hse2
    have h1 : s + 1 - s = 1 := by omega
    rw [h1, List.range'_one]

/-- Witness for C4 on the interval `[5, 7]`. -/
theorem c4_date_enumeration_inclusive_witness :
    5 ≤ 7 ∧ (scheduleDatesLoop 5 7).length = (7 - 5) + 1 :=
  ⟨by decide, (c4_date_enumeration_inclusive.1 5 7 (by decide)).1⟩

/-- Embedding of `any` over a mapped list. -/
theorem any_map_eq {α β : Type} (l : List α) (f : α → β) (p : β → Bool) :
    (l.map f).any p = l.any (fun x => p (f x)) := by
  induction l with
  | nil => rfl
  | cons x xs ih => simp [ih]

/-- Embedding of `isEmpty` is preserved by `map`. -/
theorem isEmpty_map_eq {α β : Type} (l : List α) (f : α → β) :
    (l.map f).isEmpty = l.isEmpty := by
  cases l <;> rfl

/-- The Mongo overlap query holds exactly when the specification's overlap
condition does (and the schedule is not the excluded one). -/
theorem matchesOverlapQuery_eq_true (ids : List String) (s e : Nat)
    (excl : Option Nat) (sch : MenuSchedule) :
    matchesOverlapQuery ids s e excl sch = true ↔
      (OverlapConflict ids s e sch ∧ ∀ i, excl = some i → sch.id ≠ i) := by
  unfold matchesOverlapQuery OverlapConflict
  cases excl with
  | none =>
    simp [List.any_eq_true, List.elem_iff, and_assoc]
  | some i =>
    simp [List.any_eq_true, List.elem_iff, and_assoc]

/-- Embedding of `_check_overlapping_schedules`, unfolded. -/
theorem checkOverlapping_eq (db : List MenuSchedule) (campus town : List String)
    (s e : Nat) (excl : Option Nat) :
    checkOverlappingSchedules db campus town s e excl =
      if (db.filter (matchesOverlapQuery (campus ++ town) s e excl)).isEmpty
      then Except.ok ()
      else Except.error (conflictingNames (campus ++ town)
        (db.filter (matchesOverlapQuery (campus ++ town) s e excl))) := rfl

/-- The overlap check succeeds exactly when no stored schedule satisfies
the overlap condition (excluded schedule apart). -/
theorem checkOverlapping_ok_iff (db : List MenuSchedule) (campus town : List String)
    (s e : Nat) (excl : Option Nat) :
    checkOverlappingSchedules db campus town s e excl = Except.ok () ↔
      ∀ sch ∈ db,
        ¬(OverlapConflict (campus ++ town) s e sch ∧
          ∀ i, excl = some i → sch.id ≠ i) := by
  rw [checkOverlapping_eq]
  by_cases hE : (db.filter (matchesOverlapQuery (campus ++ town) s e excl)).isEmpty
  · rw [if_pos hE]
    rw [List.isEmpty_iff] at hE
    refine iff_of_true rfl (fun sch hmem hconf => ?_)
    have hq : matchesOverlapQuery (campus ++ town) s e excl sch = true :=
      (matchesOverlapQuery_eq_true _ _ _ _ _).mpr hconf
    have : sch ∈ db.filter (matchesOverlapQuery (campus ++ town) s e excl) :=
      List.mem_filter.mpr ⟨hmem, hq⟩
    rw [hE] at this
    exact absurd this (List.not_mem_nil sch)
  · rw [if_neg hE]
    rw [List.isEmpty_iff] at hE
    refine iff_of_false (by simp) (fun hall => ?_)
    obtain ⟨sch, hsch⟩ := List.exists_mem_of_ne_nil _ hE
    have hmem := (List.mem_filter.mp hsch).1
    have hq := (List.mem_filter.mp hsch).2
    exact hall sch hmem ((matchesOverlapQuery_eq_true _ _ _ _ _).mp hq)

/-- When some stored schedule satisfies the overlap condition, the check
fails with the conflicting-location names of the whole overlapping set. -/
theorem checkOverlapping_error_of_conflict (db : List MenuSchedule)
    (campus town : List String) (s e : Nat) (sch : MenuSchedule)
    (hmem : sch ∈ db) (hconf : OverlapConflict (campus ++ town) s e sch) :
    checkOverlappingSchedules db campus town s e none =
      Except.error (conflictingNames (campus ++ town)
        (db.filter (matchesOverlapQuery (campus ++ town) s e none))) := by
  rw [checkOverlapping_eq]
  have hq : matchesOverlapQuery (campus ++ town) s e none sch = true :=
    (matchesOverlapQuery_eq_true _ _ _ _ _).mpr ⟨hconf, by simp⟩
  have hne : db.filter (matchesOverlapQuery (campus ++ town) s e none) ≠ [] :=
    List.ne_nil_of_mem (List.mem_filter.mpr ⟨hmem, hq⟩)
  rw [if_neg (by rw [List.isEmpty_iff]; exact hne)]

/-- Every location shared between a request and an overlapping stored
schedule has its name in the collected conflicting names. -/
theorem mem_conflictingNames (ids : List String) (overlapping : List MenuSchedule)
    (sch : MenuSchedule) (c : Coverage) (hs : sch ∈ overlapping)
    (hc : c ∈ sch.coverage) (hid : c.location_id ∈ ids) :
    c.location_name ∈ conflictingNames ids overlapping := by
  unfold conflictingNames
  rw [List.mem_flatten]
  refine ⟨(sch.coverage.filter (fun c2 => ids.contains c2.location_id)).map
    (fun c2 => c2.location_name), List.mem_map_of_mem _ hs, ?_⟩
  exact List.mem_map_of_mem _
    (List.mem_filter.mpr ⟨hc, List.elem_iff.mpr hid⟩)

/-- C1: if some stored schedule with status `active` or `future` shares a
location identifier with the request and its inclusive date range overlaps
the requested one, the overlap check fails with a Conflict error whose
location list names every conflicting location; if no stored schedule
conflicts, the check raises nothing; and a store containing only
`cancelled`/`completed` schedules never causes a conflict. -/
theorem c1_no_double_booking (db : List MenuSchedule)
    (campusIds townIds : List String) (s e : Nat) :
    ((∃ sch ∈ db, OverlapConflict (campusIds ++ townIds) s e sch) →
      ∃ names,
        checkOverlappingSchedules db campusIds townIds s e none =
          Except.error names ∧
        ∀ sch ∈ db, OverlapConflict (campusIds ++ townIds) s e sch →
          ∀ c ∈ sch.coverage, c.location_id ∈ campusIds ++ townIds →
            c.location_name ∈ names) ∧
    ((∀ sch ∈ db, ¬ OverlapConflict (campusIds ++ townIds) s e sch) →
      checkOverlappingSchedules db campusIds townIds s e none = Except.ok ()) ∧
    ((∀ sch ∈ db, sch.status = ScheduleStatus.cancelled ∨
        sch.status = ScheduleStatus.completed) →
      checkOverlappingSchedules db campusIds townIds s e none = Except.ok ()) := by
  refine ⟨?_, ?_, ?_⟩
  · rintro ⟨sch, hmem, hconf⟩
    refine ⟨_, checkOverlapping_error_of_conflict db campusIds townIds s e sch
      hmem hconf, ?_⟩
    intro sch2 hmem2 hconf2 c hc hid
    have hq : matchesOverlapQuery (campusIds ++ townIds) s e none sch2 = true :=
      (matchesOverlapQuery_eq_true _ _ _ _ _).mpr ⟨hconf2, by simp⟩
    exact mem_conflictingNames _ _ sch2 c
      (List.mem_filter.mpr ⟨hmem2, hq⟩) hc hid
  · intro h
    exact (checkOverlapping_ok_iff db campusIds townIds s e none).mpr
      (fun sch hm hc => h sch hm hc.1)
  · intro h
    refine (checkOverlapping_ok_iff db campusIds townIds s e none).mpr
      (fun sch hm hc => ?_)
    rcases h sch hm with h1 | h1 <;> rcases hc.1.2.1 with h2 | h2 <;>
      rw [h1] at h2 <;> exact ScheduleStatus.noConfusion h2

/-- Witness for C1: a conflicting active schedule triggers the error with
the shared name listed, and a store of cancelled schedules does not. -/
theorem c1_no_double_booking_witness :
    (∃ sch ∈ [schW1], OverlapConflict (["42"] ++ []) 15 25 sch) ∧
    (∃ names,
      checkOverlappingSchedules [schW1] ["42"] [] 15 25 none =
        Except.error names ∧
      ∀ sch ∈ [schW1], OverlapConflict (["42"] ++ []) 15 25 sch →
        ∀ c ∈ sch.coverage, c.location_id ∈ ["42"] ++ [] →
          c.location_name ∈ names) ∧
    checkOverlappingSchedules [schW1c] ["42"] [] 15 25 none = Except.ok () :=
  ⟨by decide,
   (c1_no_double_booking [schW1] ["42"] [] 15 25).1 (by decide),
   (c1_no_double_booking [schW1c] ["42"] [] 15 25).2.2 (by decide)⟩

/-- The overlap query never inspects the location kind. -/
theorem matchesOverlapQuery_mapKind (f : LocationKind → LocationKind)
    (ids : List String) (s e : Nat) (excl : Option Nat) (sch : MenuSchedule) :
    matchesOverlapQuery ids s e excl (mapScheduleKind f sch) =
      matchesOverlapQuery ids s e excl sch := by
  unfold matchesOverlapQuery mapScheduleKind
  simp only [any_map_eq]
  rfl

/-- The collected conflicting names never inspect the location kind. -/
theorem conflictingNames_mapKind (f : LocationKind → LocationKind)
    (ids : List String) (overlapping : List MenuSchedule) :
    conflictingNames ids (overlapping.map (mapScheduleKind f)) =
      conflictingNames ids overlapping := by
  unfold conflictingNames
  rw [List.map_map]
  congr 1
  apply List.map_congr_left
  intro sch _
  show ((sch.coverage.map (mapCoverageKind f)).filter
      (fun c => ids.contains c.location_id)).map (fun c => c.location_name) =
    (sch.coverage.filter (fun c => ids.contains c.location_id)).map
      (fun c => c.location_name)
  induction sch.coverage with
  | nil => rfl
  | cons c cs ih =>
    by_cases h : c.location_id ∈ ids <;>
      simp_all [List.filter_cons, mapCoverageKind, List.elem_iff]

/-- C10: overlap detection compares only location identifier strings and
ignores the location kind: the check's outcome is invariant under any
rewriting of the stored location kinds, and a stored active/future schedule
covering a *town* whose identifier appears among the requested *campus*
identifiers is reported as a conflict with its location named. -/
theorem c10_overlap_ignores_location_kind :
    (∀ (f : LocationKind → LocationKind) (db : List MenuSchedule)
        (campusIds townIds : List String) (s e : Nat) (excl : Option Nat),
      checkOverlappingSchedules (db.map (mapScheduleKind f)) campusIds townIds
          s e excl =
        checkOverlappingSchedules db campusIds townIds s e excl) ∧
    (∀ (db : List MenuSchedule) (campusIds townIds : List String) (s e : Nat)
        (sch : MenuSchedule) (c : Coverage),
      sch ∈ db → c ∈ sch.coverage → c.location_type = LocationKind.town →
      c.location_id ∈ campusIds →
      (sch.status = ScheduleStatus.active ∨ sch.status = ScheduleStatus.future) →
      sch.start_date ≤ e → s ≤ sch.end_date →
      ∃ names,
        checkOverlappingSchedules db campusIds townIds s e none =
          Except.error names ∧ c.location_name ∈ names) := by
  constructor
  · intro f db campusIds townIds s e excl
    rw [checkOverlapping_eq, checkOverlapping_eq, List.filter_map]
    have hfun : ((matchesOverlapQuery (campusIds ++ townIds) s e excl) ∘
        mapScheduleKind f) = matchesOverlapQuery (campusIds ++ townIds) s e excl :=
      funext (fun sch => matchesOverlapQuery_mapKind f _ s e excl sch)
    rw [hfun, isEmpty_map_eq, conflictingNames_mapKind]
  · intro db campusIds townIds s e sch c hmem hc _ hid hstatus h1 h2
    have hconf : OverlapConflict (campusIds ++ townIds) s e sch :=
      ⟨⟨c, hc, List.mem_append_left _ hid⟩, hstatus, h1, h2⟩
    refine ⟨_, checkOverlapping_error_of_conflict db campusIds townIds s e sch
      hmem hconf, ?_⟩
    have hq : matchesOverlapQuery (campusIds ++ townIds) s e none sch = true :=
      (matchesOverlapQuery_eq_true _ _ _ _ _).mpr ⟨hconf, by simp⟩
    exact mem_conflictingNames _ _ sch c (List.mem_filter.mpr ⟨hmem, hq⟩) hc
      (List.mem_append_left _ hid)

/-- Witness for C10: a stored town schedule with identifier "42" conflicts
with a campus request for identifier "42". -/
theorem c10_overlap_ignores_location_kind_witness :
    schW10 ∈ [schW10] ∧
    ∃ names,
      checkOverlappingSchedules [schW10] ["42"] [] 15 25 none =
        Except.error names ∧ "Town T" ∈ names :=
  ⟨by decide,
   c10_overlap_ignores_location_kind.2 [schW10] ["42"] [] 15 25 schW10
     ⟨"42", LocationKind.town, "Town T"⟩ (by decide) (by decide) (by decide)
     (by decide) (Or.inl (by decide)) (by decide) (by decide)⟩

/-- C3: an assignment request with no campus and no town is *not* rejected
before store access.  The request model's `validate_locations` never fires
(dead guard), so the request reaches the service, whose step 1 reads the
Menu Cycle store; only then does step 2 reject with the 400 empty-location
error.  For every environment holding an active cycle under a well-formed
id, and every request with both location lists empty and `start <= end`,
the pipeline returns the empty-location ValidationError with exactly one
Menu Cycle store read already performed before it. -/
theorem c3_empty_locations_rejected_after_cycle_read
    (env : SchedEnv) (mcid : String) (mc : MenuCycle) (s e : Nat)
    (hse : s ≤ e)
    (hid : isValidObjectId mcid = true)
    (hmc : env.cycles mcid = some mc)
    (hactive : mc.status = CycleStatus.active) :
    handleAssign env mcid [] [] s e =
      (Except.error
        (HErr.badRequest "At least one campus or town must be selected"),
       [StoreEvent.readMenuCycle mcid]) := by
  have hlt : ¬ e < s := by omega
  simp [handleAssign, mkAssignmentRequest, assignMenuCycle, hlt, hid, hmc,
    hactive]

/-- Witness for C3: a concrete empty-location request against a store with
an active cycle is rejected only after the cycle read. -/
theorem c3_empty_locations_rejected_after_cycle_read_witness :
    5 ≤ 10 ∧ isValidObjectId cidC9 = true ∧
    envC9.cycles cidC9 = some mcC9 ∧ mcC9.status = CycleStatus.active ∧
    handleAssign envC9 cidC9 [] [] 5 10 =
      (Except.error
        (HErr.badRequest "At least one campus or town must be selected"),
       [StoreEvent.readMenuCycle cidC9]) :=
  ⟨by decide, by decide, rfl, rfl,
   c3_empty_locations_rejected_after_cycle_read envC9 cidC9 mcC9 5 10
     (by decide) (by decide) rfl rfl⟩

/-- C9: every successful assignment inserts a schedule whose status is
`future` exactly when the start date is strictly after today and `active`
otherwise; never `completed` or `cancelled`, and in particular `active`
when the whole requested range lies in the past. -/
theorem c9_assign_status_derivation (env : SchedEnv) (req : AssignmentRequest)
    (summary : AssignmentSummary) (events : List StoreEvent)
    (h : assignMenuCycle env req = (Except.ok summary, events)) :
    ∃ sch, StoreEvent.insertSchedule sch ∈ events ∧
      sch.status = (if env.today < req.start_date then ScheduleStatus.future
        else ScheduleStatus.active) ∧
      sch.status ≠ ScheduleStatus.completed ∧
      sch.status ≠ ScheduleStatus.cancelled ∧
      (req.end_date < env.today → req.start_date ≤ req.end_date →
        sch.status = ScheduleStatus.active) := by
  unfold assignMenuCycle at h
  split at h
  · simp at h
  · split at h
    · simp at h
    · split at h
      · simp at h
      · split at h
        · simp at h
        · split at h
          · simp at h
          · split at h
            · simp at h
            · split at h
              · simp at h
              · simp only [Prod.mk.injEq] at h
                obtain ⟨-, hev⟩ := h
                subst hev
                refine ⟨_, List.mem_append_right _ (List.mem_singleton_self _),
                  rfl, ?_, ?_, ?_⟩
                · show (if env.today < req.start_date then ScheduleStatus.future
                    else ScheduleStatus.active) ≠ ScheduleStatus.completed
                  split <;> simp
                · show (if env.today < req.start_date then ScheduleStatus.future
                    else ScheduleStatus.active) ≠ ScheduleStatus.cancelled
                  split <;> simp
                · intro hend hse
                  show (if env.today < req.start_date then ScheduleStatus.future
                    else ScheduleStatus.active) = ScheduleStatus.active
                  rw [if_neg (by omega)]

/-- Witness for C9: a concrete successful future-dated assignment. -/
theorem c9_assign_status_derivation_witness :
    assignMenuCycle envC9 reqC9 = (Except.ok sumC9, evsC9) ∧
    ∃ sch, StoreEvent.insertSchedule sch ∈ evsC9 ∧
      sch.status = (if envC9.today < reqC9.start_date then ScheduleStatus.future
        else ScheduleStatus.active) ∧
      sch.status ≠ ScheduleStatus.completed ∧
      sch.status ≠ ScheduleStatus.cancelled ∧
      (reqC9.end_date < envC9.today → reqC9.start_date ≤ reqC9.end_date →
        sch.status = ScheduleStatus.active) :=
  ⟨rfl, c9_assign_status_derivation envC9 reqC9 sumC9 evsC9 rfl⟩


/-- Embedding of `cancel_schedule` on a schedule that is neither cancelled nor completed
marks it cancelled and records the reason. -/
theorem cancelSchedule_not_terminal (i : Nat) (m : String) (cov : List Coverage)
    (sd ed : Nat) (st : ScheduleStatus) (ci : Option CancellationInfo)
    (reason : Option String) (h1 : st ≠ ScheduleStatus.cancelled)
    (h2 : st ≠ ScheduleStatus.completed) :
    cancelSchedule ⟨i, m, cov, sd, ed, st, ci⟩ reason =
      Except.ok ⟨i, m, cov, sd, ed, ScheduleStatus.cancelled,
        some { reason := reason }⟩ := by
  unfold cancelSchedule
  rw [if_neg (by simp [h1]), if_neg (by simp [h2])]

/-- Embedding of `uncancel_schedule` on a cancelled schedule re-derives the status from
today's date, re-runs the overlap check excluding the schedule itself, and
clears the cancellation metadata. -/
theorem uncancelSchedule_cancelled (db : List MenuSchedule) (i : Nat)
    (m : String) (cov : List Coverage) (sd ed : Nat)
    (ci : Option CancellationInfo) (today : Nat) :
    uncancelSchedule db ⟨i, m, cov, sd, ed, ScheduleStatus.cancelled, ci⟩ today =
      match checkOverlappingSchedules db
          ((cov.filter (fun c => c.location_type == LocationKind.campus)).map
            (fun c => c.location_id))
          ((cov.filter (fun c => c.location_type == LocationKind.town)).map
            (fun c => c.location_id))
          sd ed (some i) with
      | Except.error names => Except.error (HErr.conflict names)
      | Except.ok _ => Except.ok ⟨i, m, cov, sd, ed,
          (if today < sd then ScheduleStatus.future else ScheduleStatus.active),
          none⟩ := by
  unfold uncancelSchedule
  by_cases ht : today < sd <;> simp [ht] <;>
    (cases checkOverlappingSchedules db
        ((cov.filter (fun c => c.location_type == LocationKind.campus)).map
          (fun c => c.location_id))
        ((cov.filter (fun c => c.location_type == LocationKind.town)).map
          (fun c => c.location_id)) sd ed (some i) <;> rfl)

/-- C5: cancelling an active or future schedule and then uncancelling it
(the overlap re-check passing) restores a schedule with exactly the
original coverage, start date, end date, identifier and cycle reference;
only the status and the cancellation metadata can differ, the status again
being `active` or `future` and the metadata cleared. -/
theorem c5_cancel_uncancel_roundtrip (db : List MenuSchedule)
    (sch : MenuSchedule) (reason : Option String) (today : Nat)
    (sch1 sch2 : MenuSchedule)
    (hstatus : sch.status = ScheduleStatus.active ∨
      sch.status = ScheduleStatus.future)
    (hcancel : cancelSchedule sch reason = Except.ok sch1)
    (huncancel : uncancelSchedule db sch1 today = Except.ok sch2) :
    sch2.coverage = sch.coverage ∧ sch2.start_date = sch.start_date ∧
    sch2.end_date = sch.end_date ∧ sch2.id = sch.id ∧
    sch2.menu_cycle_id = sch.menu_cycle_id ∧
    (sch2.status = ScheduleStatus.active ∨
      sch2.status = ScheduleStatus.future) ∧
    sch2.cancellation_info = none := by
  obtain ⟨i, m, cov, sd, ed, st, ci⟩ := sch
  dsimp only at hstatus
  have h1 : st ≠ ScheduleStatus.cancelled := by
    rcases hstatus with h | h <;> simp [h]
  have h2 : st ≠ ScheduleStatus.completed := by
    rcases hstatus with h | h <;> simp [h]
  rw [cancelSchedule_not_terminal i m cov sd ed st ci reason h1 h2] at hcancel
  injection hcancel with hs1
  subst hs1
  rw [uncancelSchedule_cancelled] at huncancel
  split at huncancel
  · exact absurd huncancel (by simp)
  · injection huncancel with hs2
    subst hs2
    refine ⟨rfl, rfl, rfl, rfl, rfl, ?_, rfl⟩
    dsimp only
    split
    · exact Or.inr rfl
    · exact Or.inl rfl

/-- Witness for C5: a concrete active schedule cancelled with reason
"maintenance" and uncancelled on day 30 against an empty store. -/
theorem c5_cancel_uncancel_roundtrip_witness :
    cancelSchedule schW5 (some "maintenance") = Except.ok schW5c ∧
    uncancelSchedule [] schW5c 30 = Except.ok schW5u ∧
    (schW5u.coverage = schW5.coverage ∧ schW5u.start_date = schW5.start_date ∧
    schW5u.end_date = schW5.end_date ∧ schW5u.id = schW5.id ∧
    schW5u.menu_cycle_id = schW5.menu_cycle_id ∧
    (schW5u.status = ScheduleStatus.active ∨
      schW5u.status = ScheduleStatus.future) ∧
    schW5u.cancellation_info = none) :=
  ⟨rfl, rfl,
   c5_cancel_uncancel_roundtrip [] schW5 (some "maintenance") 30 schW5c schW5u
     (Or.inl rfl) rfl rfl⟩

/-- C6: the citizen effective-menu lookup is total and never surfaces a
NotFound error: when no active-or-future schedule covers the location on
the date, when the referenced menu cycle is missing, and when no daily menu
exists for the computed cyclic day, it returns an `is_available = false`
response carrying an explanatory message. -/
theorem c6_citizen_lookup_never_not_found (env : SchedEnv) (lid lt : String)
    (d : Nat) :
    (env.schedules.find? (citizenQueryMatches lid (lowerStr lt) d) = none →
      (getEffectiveMenuForCitizen env lid lt d).is_available = false ∧
      (getEffectiveMenuForCitizen env lid lt d).message.isSome = true) ∧
    (∀ sch,
      env.schedules.find? (citizenQueryMatches lid (lowerStr lt) d) = some sch →
      env.cycles sch.menu_cycle_id = none →
      (getEffectiveMenuForCitizen env lid lt d).is_available = false ∧
      (getEffectiveMenuForCitizen env lid lt d).message.isSome = true) ∧
    (∀ sch mc,
      env.schedules.find? (citizenQueryMatches lid (lowerStr lt) d) = some sch →
      env.cycles sch.menu_cycle_id = some mc →
      mc.daily_menus.find?
        (fun dm => dm.day == cycleDayFor sch.start_date mc.duration_days d) =
        none →
      (getEffectiveMenuForCitizen env lid lt d).is_available = false ∧
      (getEffectiveMenuForCitizen env lid lt d).message.isSome = true) := by
  refine ⟨fun h => ?_, fun sch h hc => ?_, fun sch mc h hc hdm => ?_⟩
  · constructor <;> simp [getEffectiveMenuForCitizen, h]
  · constructor <;> simp [getEffectiveMenuForCitizen, h, hc]
  · constructor <;> simp [getEffectiveMenuForCitizen, h, hc, hdm]

/-- Witness for C6, exercising all three unavailability cases. -/
theorem c6_citizen_lookup_never_not_found_witness :
    (envC6a.schedules.find? (citizenQueryMatches "x" (lowerStr "campus") 5) =
        none ∧
      (getEffectiveMenuForCitizen envC6a "x" "campus" 5).is_available = false ∧
      (getEffectiveMenuForCitizen envC6a "x" "campus" 5).message.isSome =
        true) ∧
    (envC6b.schedules.find? (citizenQueryMatches "7" (lowerStr "campus") 50) =
        some schC6 ∧
      envC6b.cycles schC6.menu_cycle_id = none ∧
      (getEffectiveMenuForCitizen envC6b "7" "campus" 50).is_available =
        false ∧
      (getEffectiveMenuForCitizen envC6b "7" "campus" 50).message.isSome =
        true) ∧
    (envC6c.schedules.find? (citizenQueryMatches "7" (lowerStr "campus") 50) =
        some schC6 ∧
      envC6c.cycles schC6.menu_cycle_id = some mcC6 ∧
      mcC6.daily_menus.find?
        (fun dm =>
          dm.day == cycleDayFor schC6.start_date mcC6.duration_days 50) =
        none ∧
      (getEffectiveMenuForCitizen envC6c "7" "campus" 50).is_available =
        false ∧
      (getEffectiveMenuForCitizen envC6c "7" "campus" 50).message.isSome =
        true) := by
  refine ⟨⟨rfl, ?_⟩, ⟨rfl, rfl, ?_, ?_⟩, ⟨rfl, rfl, rfl, ?_, ?_⟩⟩
  · exact (c6_citizen_lookup_never_not_found envC6a "x" "campus" 5).1 rfl
  · exact ((c6_citizen_lookup_never_not_found envC6b "7" "campus" 50).2.1
      schC6 rfl rfl).1
  · exact ((c6_citizen_lookup_never_not_found envC6b "7" "campus" 50).2.1
      schC6 rfl rfl).2
  · exact ((c6_citizen_lookup_never_not_found envC6c "7" "campus" 50).2.2
      schC6 mcC6 rfl rfl rfl).1
  · exact ((c6_citizen_lookup_never_not_found envC6c "7" "campus" 50).2.2
      schC6 mcC6 rfl rfl rfl).2

/-- Membership in a conditional singleton. -/
theorem mem_ite_singleton {α : Type} (c : Prop) [Decidable c] (a b : α) :
    (a ∈ if c then [b] else ([] : List α)) ↔ (c ∧ a = b) := by
  split <;> simp_all

/-- C7: the requirements comparison computes each tracked nutrient's
compliance as `actual / required * 100`, overall compliance as the
unweighted mean of the six percentages, buckets the status at 90/80/70,
lists every nutrient under 80% as an improvement area; and the compare
endpoint's recommendation rules emit "significantly increase" under 50%,
"moderately increase" between 50% and 80%, and "consider reducing" for
sodium and fat above 150%. -/
theorem c7_compare_with_requirements :
    (∀ (actual : NutrientTotals) (ageGroup : String),
      (compareWithRequirements actual ageGroup).requirements =
        requirementsFor ageGroup ∧
      (compareWithRequirements actual ageGroup).calorie_compliance =
        actual.total_calories / (requirementsFor ageGroup).daily_calories * 100 ∧
      (compareWithRequirements actual ageGroup).protein_compliance =
        actual.total_protein / (requirementsFor ageGroup).daily_protein * 100 ∧
      (compareWithRequirements actual ageGroup).calcium_compliance =
        actual.total_calcium / (requirementsFor ageGroup).daily_calcium * 100 ∧
      (compareWithRequirements actual ageGroup).iron_compliance =
        actual.total_iron / (requirementsFor ageGroup).daily_iron * 100 ∧
      (compareWithRequirements actual ageGroup).vitamin_c_compliance =
        actual.total_vitamin_c / (requirementsFor ageGroup).daily_vitamin_c *
          100 ∧
      (compareWithRequirements actual ageGroup).vitamin_a_compliance =
        actual.total_vitamin_a / (requirementsFor ageGroup).daily_vitamin_a *
          100 ∧
      (compareWithRequirements actual ageGroup).overall_compliance =
        ((compareWithRequirements actual ageGroup).calorie_compliance +
         (compareWithRequirements actual ageGroup).protein_compliance +
         (compareWithRequirements actual ageGroup).calcium_compliance +
         (compareWithRequirements actual ageGroup).iron_compliance +
         (compareWithRequirements actual ageGroup).vitamin_c_compliance +
         (compareWithRequirements actual ageGroup).vitamin_a_compliance) / 6 ∧
      (90 ≤ (compareWithRequirements actual ageGroup).overall_compliance →
        (compareWithRequirements actual ageGroup).compliance_status =
          "excellent") ∧
      (80 ≤ (compareWithRequirements actual ageGroup).overall_compliance →
        (compareWithRequirements actual ageGroup).overall_compliance < 90 →
        (compareWithRequirements actual ageGroup).compliance_status = "good") ∧
      (70 ≤ (compareWithRequirements actual ageGroup).overall_compliance →
        (compareWithRequirements actual ageGroup).overall_compliance < 80 →
        (compareWithRequirements actual ageGroup).compliance_status = "fair") ∧
      ((compareWithRequirements actual ageGroup).overall_compliance < 70 →
        (compareWithRequirements actual ageGroup).compliance_status = "poor") ∧
      ("Energy/Calories" ∈
          (compareWithRequirements actual ageGroup).improvement_areas ↔
        (compareWithRequirements actual ageGroup).calorie_compliance < 80) ∧
      ("Protein" ∈ (compareWithRequirements actual ageGroup).improvement_areas ↔
        (compareWithRequirements actual ageGroup).protein_compliance < 80) ∧
      ("Calcium" ∈ (compareWithRequirements actual ageGroup).improvement_areas ↔
        (compareWithRequirements actual ageGroup).calcium_compliance < 80) ∧
      ("Iron" ∈ (compareWithRequirements actual ageGroup).improvement_areas ↔
        (compareWithRequirements actual ageGroup).iron_compliance < 80) ∧
      ("Vitamin C" ∈
          (compareWithRequirements actual ageGroup).improvement_areas ↔
        (compareWithRequirements actual ageGroup).vitamin_c_compliance < 80) ∧
      ("Vitamin A" ∈
          (compareWithRequirements actual ageGroup).improvement_areas ↔
        (compareWithRequirements actual ageGroup).vitamin_a_compliance < 80)) ∧
    (∀ (pairs : List (String × Rat)) (n : String) (p : Rat), (n, p) ∈ pairs →
      (p < 50 → ComparisonRec.significantlyIncrease n ∈
        apiRecommendations pairs) ∧
      (50 ≤ p → p < 80 → ComparisonRec.moderatelyIncrease n ∈
        apiRecommendations pairs) ∧
      (n = "sodium" → 150 < p → ComparisonRec.considerReducingSodium ∈
        apiRecommendations pairs) ∧
      (n = "fat" → 150 < p → ComparisonRec.considerReducingFat ∈
        apiRecommendations pairs)) ∧
    (∀ (pairs : List (String × Rat)) (n : String),
      n ∈ apiCoverageGaps pairs ↔ ∃ p, (n, p) ∈ pairs ∧ p < 80) := by
  refine ⟨?_, ?_, ?_⟩
  · intro actual ageGroup
    have hst : (compareWithRequirements actual ageGroup).compliance_status =
        (if 90 ≤ (compareWithRequirements actual ageGroup).overall_compliance
          then "excellent"
          else if 80 ≤ (compareWithRequirements actual ageGroup).overall_compliance
          then "good"
          else if 70 ≤ (compareWithRequirements actual ageGroup).overall_compliance
          then "fair" else "poor") := rfl
    have hia : (compareWithRequirements actual ageGroup).improvement_areas =
        (if (compareWithRequirements actual ageGroup).calorie_compliance < 80
          then ["Energy/Calories"] else []) ++
        (if (compareWithRequirements actual ageGroup).protein_compliance < 80
          then ["Protein"] else []) ++
        (if (compareWithRequirements actual ageGroup).calcium_compliance < 80
          then ["Calcium"] else []) ++
        (if (compareWithRequirements actual ageGroup).iron_compliance < 80
          then ["Iron"] else []) ++
        (if (compareWithRequirements actual ageGroup).vitamin_c_compliance < 80
          then ["Vitamin C"] else []) ++
        (if (compareWithRequirements actual ageGroup).vitamin_a_compliance < 80
          then ["Vitamin A"] else []) := rfl
    refine ⟨rfl, rfl, rfl, rfl, rfl, rfl, rfl, rfl, ?_, ?_, ?_, ?_,
      ?_, ?_, ?_, ?_, ?_, ?_⟩
    · intro h; rw [hst, if_pos h]
    · intro h80 h90
      rw [hst, if_neg (not_le.mpr h90), if_pos h80]
    · intro h70 h80
      have h90 : (compareWithRequirements actual ageGroup).overall_compliance <
          90 := lt_of_lt_of_le h80 (by norm_num)
      rw [hst, if_neg (not_le.mpr h90), if_neg (not_le.mpr h80), if_pos h70]
    · intro h70
      have h80 : (compareWithRequirements actual ageGroup).overall_compliance <
          80 := lt_of_lt_of_le h70 (by norm_num)
      have h90 : (compareWithRequirements actual ageGroup).overall_compliance <
          90 := lt_of_lt_of_le h70 (by norm_num)
      rw [hst, if_neg (not_le.mpr h90), if_neg (not_le.mpr h80),
        if_neg (not_le.mpr h70)]
    all_goals rw [hia]
    all_goals simp [List.mem_append, mem_ite_singleton]
  · intro pairs
    induction pairs with
    | nil => intro n p h; exact absurd h (List.not_mem_nil _)
    | cons hd tl ih =>
      intro n p hmem
      rcases List.mem_cons.mp hmem with heq | htl
      · subst heq
        refine ⟨fun h50 => ?_, fun h50 h80 => ?_, fun hn h150 => ?_,
          fun hn h150 => ?_⟩
        · have h80 : p < 80 := lt_of_lt_of_le h50 (by norm_num)
          simp [apiRecommendations, h80, h50]
        · simp [apiRecommendations, h80, not_lt.mpr h50]
        · subst hn
          have h80 : ¬ p < 80 := not_lt.mpr (le_of_lt (by linarith))
          simp [apiRecommendations, h80, h150]
        · subst hn
          have h80 : ¬ p < 80 := not_lt.mpr (le_of_lt (by linarith))
          simp [apiRecommendations, h80, h150]
      · obtain ⟨n2, p2⟩ := hd
        have hih := ih n p htl
        refine ⟨fun h50 => ?_, fun h50 h80 => ?_, fun hn h150 => ?_,
          fun hn h150 => ?_⟩
        · exact List.mem_append_right _ (hih.1 h50)
        · exact List.mem_append_right _ (hih.2.1 h50 h80)
        · exact List.mem_append_right _ (hih.2.2.1 hn h150)
        · exact List.mem_append_right _ (hih.2.2.2 hn h150)
  · intro pairs n
    constructor
    · intro h
      obtain ⟨⟨n2, p2⟩, hmem, heq⟩ := List.mem_map.mp h
      have hf := List.mem_filter.mp hmem
      exact ⟨p2, by simpa [heq.symm] using hf.1, by simpa using hf.2⟩
    · rintro ⟨p, hmem, hlt⟩
      exact List.mem_map.mpr ⟨(n, p),
        List.mem_filter.mpr ⟨hmem, by simpa using hlt⟩, rfl⟩

/-- Witness for C7: intakes at 100%, 85%, 75% and 0% of the school-age
requirements hit the four status buckets, and the fixture compliance pairs
trigger each recommendation rule. -/
theorem c7_compare_with_requirements_witness :
    90 ≤ (compareWithRequirements actualA "school_age_6_12").overall_compliance ∧
    (compareWithRequirements actualA "school_age_6_12").compliance_status =
      "excellent" ∧
    (compareWithRequirements actualB "school_age_6_12").compliance_status =
      "good" ∧
    (compareWithRequirements actualC "school_age_6_12").compliance_status =
      "fair" ∧
    (compareWithRequirements zeroNutrients "school_age_6_12").compliance_status =
      "poor" ∧
    ComparisonRec.significantlyIncrease "calories" ∈ apiRecommendations pairsC7 ∧
    ComparisonRec.moderatelyIncrease "protein" ∈ apiRecommendations pairsC7 ∧
    ComparisonRec.considerReducingSodium ∈ apiRecommendations pairsC7 ∧
    ComparisonRec.considerReducingFat ∈ apiRecommendations pairsC7 ∧
    ("protein" ∈ apiCoverageGaps pairsC7 ↔
      ∃ p, ("protein", p) ∈ pairsC7 ∧ p < 80) := by
  have hreq : requirementsFor "school_age_6_12" =
      { age_group := "school_age_6_12", daily_calories := 1800,
        daily_protein := 45, daily_calcium := 1000, daily_iron := 10,
        daily_vitamin_c := 45, daily_vitamin_a := 700 } := rfl
  have hA : (90 : Rat) ≤
      (compareWithRequirements actualA "school_age_6_12").overall_compliance := by
    norm_num [compareWithRequirements, hreq, actualA]
  have hB1 : (80 : Rat) ≤
      (compareWithRequirements actualB "school_age_6_12").overall_compliance := by
    norm_num [compareWithRequirements, hreq, actualB]
  have hB2 : (compareWithRequirements actualB
      "school_age_6_12").overall_compliance < 90 := by
    norm_num [compareWithRequirements, hreq, actualB]
  have hC1 : (70 : Rat) ≤
      (compareWithRequirements actualC "school_age_6_12").overall_compliance := by
    norm_num [compareWithRequirements, hreq, actualC]
  have hC2 : (compareWithRequirements actualC
      "school_age_6_12").overall_compliance < 80 := by
    norm_num [compareWithRequirements, hreq, actualC]
  have hD : (compareWithRequirements zeroNutrients
      "school_age_6_12").overall_compliance < 70 := by
    norm_num [compareWithRequirements, hreq, zeroNutrients]
  refine ⟨hA, ?_, ?_, ?_, ?_, ?_, ?_, ?_, ?_, ?_⟩
  · exact (c7_compare_with_requirements.1 actualA
      "school_age_6_12").2.2.2.2.2.2.2.2.1 hA
  · exact (c7_compare_with_requirements.1 actualB
      "school_age_6_12").2.2.2.2.2.2.2.2.2.1 hB1 hB2
  · exact (c7_compare_with_requirements.1 actualC
      "school_age_6_12").2.2.2.2.2.2.2.2.2.2.1 hC1 hC2
  · exact (c7_compare_with_requirements.1 zeroNutrients
      "school_age_6_12").2.2.2.2.2.2.2.2.2.2.2.1 hD
  · exact (c7_compare_with_requirements.2.1 pairsC7 "calories" 40
      (by decide)).1 (by decide)
  · exact (c7_compare_with_requirements.2.1 pairsC7 "protein" 60
      (by decide)).2.1 (by decide) (by decide)
  · exact (c7_compare_with_requirements.2.1 pairsC7 "sodium" 200
      (by decide)).2.2.1 rfl (by decide)
  · exact (c7_compare_with_requirements.2.1 pairsC7 "fat" 160
      (by decide)).2.2.2 rfl (by decide)
  · exact c7_compare_with_requirements.2.2 pairsC7 "protein"

/-- Adding the all-zero nutrient summary is the identity. -/
theorem addNutrients_zero_right (a : NutrientTotals) :
    addNutrients a zeroNutrients = a := by
  cases a
  simp [addNutrients, zeroNutrients]

/-- Folding in only zero period totals returns the accumulator. -/
theorem foldl_addNutrients_eq_start (l : List LocationSummary)
    (init : NutrientTotals)
    (h : ∀ x ∈ l, x.period_totals = zeroNutrients) :
    l.foldl (fun acc x => addNutrients acc x.period_totals) init = init := by
  induction l generalizing init with
  | nil => rfl
  | cons x xs ih =>
    rw [List.foldl_cons, h x (List.mem_cons_self x xs), addNutrients_zero_right]
    exact ih init (fun y hy => h y (List.mem_cons_of_mem _ hy))

/-- A report with zero person-days (no dates or no locations) has an
all-zero overall summary: zero locations contribute nothing, and with zero
dates every location's period total is zero. -/
theorem analyze_zero_persondays (env : AnalysisEnv) (sid : String)
    (r : AnalysisReport) (h : analyzeMenuSchedule env sid = Except.ok r)
    (h0 : r.total_days * r.locations.length = 0) :
    r.overall_summary = zeroNutrients := by
  unfold analyzeMenuSchedule at h
  split at h
  · exact absurd h (by simp)
  · split at h
    · exact absurd h (by simp)
    · split at h
      · exact absurd h (by simp)
      · injection h with h2
        subst h2
        dsimp only at h0 ⊢
        rename_i x1 sch heq1 x2 mc heq2 x3 dates heq3
        rcases Nat.mul_eq_zero.mp h0 with hd | hc
        · have hdates : dates = [] := List.length_eq_zero.mp hd
          subst hdates
          refine foldl_addNutrients_eq_start _ _ (fun x hx => ?_)
          obtain ⟨cov, _, rfl⟩ := List.mem_map.mp hx
          rfl
        · have hcov : sch.coverage.map
              (fun cov => analyzeLocation env cov dates mc) = [] :=
            List.length_eq_zero.mp hc
          rw [hcov]
          rfl

/-- The Scenario-5 analysis evaluates to the fixture report. -/
theorem analyzeS8 : analyzeMenuSchedule envS8 "s1" = Except.ok rS8full := by
  with_unfolding_all rfl

/-- The Scenario-5 simplified summary evaluates to the fixture summary. -/
theorem simplifiedS8 : getSimplifiedSummary envS8 "s1" = Except.ok sS8 := by
  with_unfolding_all rfl

/-- C8: the simplified summary's per-person daily averages equal the
overall period totals divided by `max 1 (total_days * total_locations)` —
the division guard never raises and coincides with substituting 1 for an
empty denominator, because a report with zero person-days has zero totals;
and in Scenario 5 (7 days, 2 locations, 14000 kcal overall) the overall
total is 14000 and the per-person daily calorie average is 1000. -/
theorem c8_simplified_summary_guard :
    (∀ (env : AnalysisEnv) (sid : String) (r : AnalysisReport)
        (s2 : SimplifiedSummary),
      analyzeMenuSchedule env sid = Except.ok r →
      getSimplifiedSummary env sid = Except.ok s2 →
      s2.avg_daily_calories = r.overall_summary.total_calories /
        ((max 1 (r.total_days * r.locations.length) : Nat) : Rat) ∧
      s2.avg_daily_protein = r.overall_summary.total_protein /
        ((max 1 (r.total_days * r.locations.length) : Nat) : Rat) ∧
      s2.avg_daily_carbs = r.overall_summary.total_carbohydrates /
        ((max 1 (r.total_days * r.locations.length) : Nat) : Rat) ∧
      s2.avg_daily_fat = r.overall_summary.total_fat /
        ((max 1 (r.total_days * r.locations.length) : Nat) : Rat)) ∧
    (analyzeMenuSchedule envS8 "s1" = Except.ok rS8full ∧
      rS8full.total_days = 7 ∧ rS8full.locations.length = 2 ∧
      rS8full.overall_summary.total_calories = 14000 ∧
      getSimplifiedSummary envS8 "s1" = Except.ok sS8 ∧
      sS8.avg_daily_calories = 1000) := by
  constructor
  · intro env sid r s2 hr hs
    unfold getSimplifiedSummary at hs
    rw [hr] at hs
    injection hs with h2
    subst h2
    by_cases h0 : 0 < r.total_days * r.locations.length
    · have hmax : max 1 (r.total_days * r.locations.length) =
        r.total_days * r.locations.length := by omega
      rw [hmax]
      refine ⟨?_, ?_, ?_, ?_⟩ <;> dsimp only <;> rw [if_pos h0]
    · have hz := analyze_zero_persondays env sid r hr (by omega)
      have hmax : max 1 (r.total_days * r.locations.length) = 1 := by omega
      rw [hmax, hz]
      refine ⟨?_, ?_, ?_, ?_⟩ <;> dsimp only <;> rw [if_neg h0] <;>
        simp [zeroNutrients]
  · exact ⟨analyzeS8, rfl, rfl, rfl, simplifiedS8, rfl⟩

/-- Witness for C8's universally quantified part, on a report with zero
locations (one day, empty coverage). -/
theorem c8_simplified_summary_guard_witness :
    analyzeMenuSchedule envW8 "w" = Except.ok rW8 ∧
    getSimplifiedSummary envW8 "w" = Except.ok sW8 ∧
    (sW8.avg_daily_calories = rW8.overall_summary.total_calories /
        ((max 1 (rW8.total_days * rW8.locations.length) : Nat) : Rat) ∧
      sW8.avg_daily_protein = rW8.overall_summary.total_protein /
        ((max 1 (rW8.total_days * rW8.locations.length) : Nat) : Rat) ∧
      sW8.avg_daily_carbs = rW8.overall_summary.total_carbohydrates /
        ((max 1 (rW8.total_days * rW8.locations.length) : Nat) : Rat) ∧
      sW8.avg_daily_fat = rW8.overall_summary.total_fat /
        ((max 1 (rW8.total_days * rW8.locations.length) : Nat) : Rat)) :=
  ⟨rfl, rfl, c8_simplified_summary_guard.1 envW8 "w" rW8 sW8 rfl rfl⟩
